import Mathlib

/-!
Shallow embedding of the Minecraft-skin preprocessing core
(`src/mcskinprep/tools.py`): the region table `DEFAULT_MC_SKIN_REGIONS`,
the 64x32 → 64x64 expansion, the layer swap, layer removal, the
steve/alex (wide/narrow) arm conversion and the alpha-based skin-type
auto-detection, together with the file-processor level dimension checks.

An image is modelled as a total function from coordinates to RGBA
pixels; canvas sizes are tracked by the theorems' hypotheses.  PIL's
`crop` returns a sub-image carrying its own width and height (modelled
by `Piece`), and `paste` without a mask overwrites all four channels of
the destination rectangle.  Every operation of the source builds a new
blank canvas and performs a fixed sequence of pastes; each such
sequence is embedded as a list of (piece, target rectangle) jobs folded
over the blank canvas in the source's loop order.
-/

namespace MCSkin

/-- An RGBA pixel: (r, g, b, a) channel values. -/
abbrev Pixel := Nat × Nat × Nat × Nat

/-- The alpha channel of a pixel. -/
def alpha (p : Pixel) : Nat := p.2.2.2

/-- A pixel buffer, as a total function from (x, y) to the pixel there. -/
abbrev Image := Nat → Nat → Pixel

/-- The fully transparent pixel (0, 0, 0, 0). -/
def transparent : Pixel := (0, 0, 0, 0)

/-- `Image.new('RGBA', (64, 64), (0, 0, 0, 0))`: an all-transparent canvas. -/
def blank : Image := fun _ _ => transparent

/-- A rectangle `[left, top, right, bottom]`, right/bottom exclusive,
    as in the `coords` entries of `DEFAULT_MC_SKIN_REGIONS`. -/
structure Rect where
  l : Nat
  t : Nat
  r : Nat
  b : Nat
deriving DecidableEq

/-- A cropped sub-image: its own width, height and pixel function. -/
structure Piece where
  w : Nat
  h : Nat
  pix : Nat → Nat → Pixel

/-- `img.crop((l, t, r, b))`: a (r-l) x (b-t) piece reading from `img`
    at offset (l, t). -/
def crop (img : Image) (c : Rect) : Piece :=
  ⟨c.r - c.l, c.b - c.t, fun x y => img (c.l + x) (c.t + y)⟩

/-- `dst.paste(p, (l, t, ...))`: overwrite the w x h rectangle of `dst`
    at (l, t) with the piece `p` (RGBA paste without mask copies all
    channels verbatim). -/
def paste (dst : Image) (p : Piece) (l t : Nat) : Image :=
  fun x y =>
    if l ≤ x ∧ x < l + p.w ∧ t ≤ y ∧ y < t + p.h then
      p.pix (x - l) (y - t)
    else dst x y

/-- Paste a piece at the top-left corner of a target rectangle,
    as PIL does when given a 4-tuple box of the piece's size. -/
def pastePiece (dst : Image) (p : Piece) (c : Rect) : Image :=
  paste dst p c.l c.t

/-- Run a list of paste jobs left to right over an initial canvas:
    the embedding of a source loop that repeatedly calls
    `new_skin.paste(...)`. -/
def applyJobs (init : Image) : List (Piece × Rect) → Image
  | [] => init
  | j :: rest => applyJobs (pastePiece init j.1 j.2) rest

/-- Crop-and-paste jobs: for each pair (source rect, target rect),
    `new_skin.paste(img.crop(src), dst)`, in list order. -/
def applyPairs (src init : Image) (ps : List (Rect × Rect)) : Image :=
  applyJobs init (ps.map fun pr => (crop src pr.1, pr.2))

/-! ## The default region table (`DEFAULT_MC_SKIN_REGIONS`) -/

@[simp] def head1_layer1 : Rect := ⟨8, 0, 24, 8⟩
@[simp] def head2_layer1 : Rect := ⟨0, 8, 32, 16⟩
@[simp] def body1_layer1 : Rect := ⟨20, 16, 36, 20⟩
@[simp] def body2_layer1 : Rect := ⟨16, 20, 40, 32⟩
@[simp] def right_arm1_layer1 : Rect := ⟨44, 16, 52, 20⟩
@[simp] def right_arm2_layer1 : Rect := ⟨40, 20, 56, 32⟩
@[simp] def left_arm1_layer1 : Rect := ⟨36, 48, 44, 52⟩
@[simp] def left_arm2_layer1 : Rect := ⟨32, 52, 48, 64⟩
@[simp] def right_leg1_layer1 : Rect := ⟨4, 16, 12, 20⟩
@[simp] def right_leg2_layer1 : Rect := ⟨0, 20, 16, 32⟩
@[simp] def left_leg1_layer1 : Rect := ⟨20, 48, 28, 52⟩
@[simp] def left_leg2_layer1 : Rect := ⟨16, 52, 32, 64⟩

@[simp] def head1_layer2 : Rect := ⟨40, 0, 56, 8⟩
@[simp] def head2_layer2 : Rect := ⟨32, 8, 64, 16⟩
@[simp] def body1_layer2 : Rect := ⟨20, 32, 36, 36⟩
@[simp] def body2_layer2 : Rect := ⟨16, 36, 40, 48⟩
@[simp] def right_arm1_layer2 : Rect := ⟨44, 32, 52, 36⟩
@[simp] def right_arm2_layer2 : Rect := ⟨40, 36, 56, 48⟩
@[simp] def left_arm1_layer2 : Rect := ⟨52, 48, 60, 52⟩
@[simp] def left_arm2_layer2 : Rect := ⟨48, 52, 64, 64⟩
@[simp] def right_leg1_layer2 : Rect := ⟨4, 32, 12, 36⟩
@[simp] def right_leg2_layer2 : Rect := ⟨0, 36, 16, 48⟩
@[simp] def left_leg1_layer2 : Rect := ⟨4, 48, 12, 52⟩
@[simp] def left_leg2_layer2 : Rect := ⟨0, 52, 16, 64⟩

/-- All parts of layer1, in the table's insertion order
    (head, body, right_arm, left_arm, right_leg, left_leg). -/
def layer1Parts : List Rect :=
  [head1_layer1, head2_layer1, body1_layer1, body2_layer1,
   right_arm1_layer1, right_arm2_layer1, left_arm1_layer1, left_arm2_layer1,
   right_leg1_layer1, right_leg2_layer1, left_leg1_layer1, left_leg2_layer1]

/-- All parts of layer2, in the table's insertion order. -/
def layer2Parts : List Rect :=
  [head1_layer2, head2_layer2, body1_layer2, body2_layer2,
   right_arm1_layer2, right_arm2_layer2, left_arm1_layer2, left_arm2_layer2,
   right_leg1_layer2, right_leg2_layer2, left_leg1_layer2, left_leg2_layer2]

/-- Every tabled rectangle of both layers. -/
def tabledRects : List Rect := layer1Parts ++ layer2Parts

/-- `MCSkinType.slim_regions`: an arm part's rectangle with the right
    edge reduced by 2 (`coords[2] -= 2`); all non-arm parts unchanged. -/
@[simp] def shrinkR2 (c : Rect) : Rect := { c with r := c.r - 2 }

/-- Membership of a pixel coordinate in a rectangle. -/
abbrev inRect (c : Rect) (x y : Nat) : Prop :=
  c.l ≤ x ∧ x < c.r ∧ c.t ≤ y ∧ y < c.b

/-! ## `MCSkinType.auto_detect_skin_type` -/

/-- One step of the detection loop: crop an arm part, take the alpha
    channel, and test whether any pixel of the last two columns
    (`arm_alpha_channel[:, -2:]`) is nonzero. -/
def armEdgeHasPixel (img : Image) (c : Rect) : Bool :=
  let p := crop img c
  (List.range p.h).any fun y =>
    [p.w - 2, p.w - 1].any fun x => decide (0 < alpha (p.pix x y))

/-- The arm parts inspected by detection, in loop order: arm side in
    `adjust_regions` order (right_arm, left_arm), layer1 then layer2,
    part 1 then part 2 — always taken from the regular (wide) table. -/
def arm_check_parts : List Rect :=
  [right_arm1_layer1, right_arm2_layer1, right_arm1_layer2, right_arm2_layer2,
   left_arm1_layer1, left_arm2_layer1, left_arm1_layer2, left_arm2_layer2]

/-- `auto_detect_skin_type`: 'regular' as soon as one inspected arm
    part has an opaque pixel in its last two columns, else 'slim'. -/
def auto_detect_skin_type (img : Image) : String :=
  if arm_check_parts.any (armEdgeHasPixel img) then "regular" else "slim"

/-! ## `MCSkinTools.convert_skin_64x32_to_64x64` (expand)

The method pastes, in source order: the layer1 parts of head, body,
right_arm, right_leg and the layer2 parts of head at their own
rectangles, then copies the layer1 right_arm / right_leg parts verbatim
to the matching-ordinal left_arm / left_leg rectangles (the
`coord_mapping` built with `name.replace("right", "left")` pairs the
parts by ordinal: the zipped source and target lists both hold part 1
then part 2, and the replaced names match exactly those keys). -/
def expandPairs : List (Rect × Rect) :=
  [(head1_layer1, head1_layer1), (head2_layer1, head2_layer1),
   (body1_layer1, body1_layer1), (body2_layer1, body2_layer1),
   (right_arm1_layer1, right_arm1_layer1), (right_arm2_layer1, right_arm2_layer1),
   (right_leg1_layer1, right_leg1_layer1), (right_leg2_layer1, right_leg2_layer1),
   (head1_layer2, head1_layer2), (head2_layer2, head2_layer2),
   (right_arm1_layer1, left_arm1_layer1), (right_arm2_layer1, left_arm2_layer1),
   (right_leg1_layer1, left_leg1_layer1), (right_leg2_layer1, left_leg2_layer1)]

def convert_skin_64x32_to_64x64 (img : Image) : Image :=
  applyPairs img blank expandPairs

/-! ## `MCSkinTools.swap_skin_layer2_to_layer1`

For every part of layer1 then layer2 (table insertion order), crop the
part's own rectangle and paste it at the rectangle of the part with the
same body part and ordinal in the opposite layer (the target found by
`name.replace(layer, target_layer)`, which for the default table is
exactly the same-ordinal part of the other layer). -/
def swapPairs : List (Rect × Rect) :=
  [(head1_layer1, head1_layer2), (head2_layer1, head2_layer2),
   (body1_layer1, body1_layer2), (body2_layer1, body2_layer2),
   (right_arm1_layer1, right_arm1_layer2), (right_arm2_layer1, right_arm2_layer2),
   (left_arm1_layer1, left_arm1_layer2), (left_arm2_layer1, left_arm2_layer2),
   (right_leg1_layer1, right_leg1_layer2), (right_leg2_layer1, right_leg2_layer2),
   (left_leg1_layer1, left_leg1_layer2), (left_leg2_layer1, left_leg2_layer2),
   (head1_layer2, head1_layer1), (head2_layer2, head2_layer1),
   (body1_layer2, body1_layer1), (body2_layer2, body2_layer1),
   (right_arm1_layer2, right_arm1_layer1), (right_arm2_layer2, right_arm2_layer1),
   (left_arm1_layer2, left_arm1_layer1), (left_arm2_layer2, left_arm2_layer1),
   (right_leg1_layer2, right_leg1_layer1), (right_leg2_layer2, right_leg2_layer1),
   (left_leg1_layer2, left_leg1_layer1), (left_leg2_layer2, left_leg2_layer1)]

def swap_skin_layer2_to_layer1 (img : Image) : Image :=
  applyPairs img blank swapPairs

def twice_swap_skin_layer (img : Image) : Image :=
  swap_skin_layer2_to_layer1 (swap_skin_layer2_to_layer1 img)

/-! ## `MCSkinTools.remove_layer` -/

/-- `remove_layer(img, layer_index)`: keep the opposite layer's parts
    (cropped and pasted at their own coordinates) on a blank canvas;
    any other index prints an error and returns `None`. -/
def remove_layer (img : Image) (layer_index : Int) : Option Image :=
  if layer_index = 1 then
    some (applyPairs img blank (layer2Parts.map fun c => (c, c)))
  else if layer_index = 2 then
    some (applyPairs img blank (layer1Parts.map fun c => (c, c)))
  else
    none

/-! ## Arm-width conversion (`steve_to_alex`, `alex_to_steve`) -/

/-- Delete one pixel column at index `c`: columns right of `c` shift
    left by one. -/
def deleteCol (p : Piece) (c : Nat) : Piece :=
  ⟨p.w - 1, p.h, fun x y => if x < c then p.pix x y else p.pix (x + 1) y⟩

/-- `np.delete(arr, [c1, c2], axis=1)` with `c1 < c2` removes both
    columns simultaneously, i.e. deletes the higher index first. -/
def deleteCols (p : Piece) (c1 c2 : Nat) : Piece :=
  deleteCol (deleteCol p c2) c1

/-- `np.insert(arr, c, arr[:, c], axis=1)`: duplicate column `c`
    (the copy is inserted before index `c`, so columns `≤ c` keep their
    value and columns right of `c` come from one position further left). -/
def dupCol (p : Piece) (c : Nat) : Piece :=
  ⟨p.w + 1, p.h, fun x y => if x ≤ c then p.pix x y else p.pix (x - 1) y⟩

/-- The two sequential column inserts of `alex_to_steve` for one part:
    first duplicate column `c1`, then column `c2` (the source loops over
    `insert_col` in the given order, higher index first). -/
def widenPart (p : Piece) (c1 c2 : Nat) : Piece :=
  dupCol (dupCol p c1) c2

/-- `steve_to_alex` paste jobs: for layer1 then layer2, right_arm then
    left_arm, part 1 then part 2, crop the regular rectangle, delete the
    two columns of `delete_columns` (with `i = 2`: right part 1 deletes
    `[i, 4+i] = [2, 6]`, right part 2 `[4+i, 12+(3-i)] = [6, 13]`, left
    part 1 `[3-i, 4+(3-i)] = [1, 5]`, left part 2 `[4+(3-i), 12+i] =
    [5, 14]`) and paste at the slim rectangle of the same part. -/
def narrowJobs (img : Image) : List (Piece × Rect) :=
  [(deleteCols (crop img right_arm1_layer1) 2 6, shrinkR2 right_arm1_layer1),
   (deleteCols (crop img right_arm2_layer1) 6 13, shrinkR2 right_arm2_layer1),
   (deleteCols (crop img left_arm1_layer1) 1 5, shrinkR2 left_arm1_layer1),
   (deleteCols (crop img left_arm2_layer1) 5 14, shrinkR2 left_arm2_layer1),
   (deleteCols (crop img right_arm1_layer2) 2 6, shrinkR2 right_arm1_layer2),
   (deleteCols (crop img right_arm2_layer2) 6 13, shrinkR2 right_arm2_layer2),
   (deleteCols (crop img left_arm1_layer2) 1 5, shrinkR2 left_arm1_layer2),
   (deleteCols (crop img left_arm2_layer2) 5 14, shrinkR2 left_arm2_layer2)]

/-- `steve_to_alex`: re-detect the skin type; a slim skin is returned
    unchanged, otherwise the arm parts are narrowed onto a blank canvas. -/
def steve_to_alex (img : Image) : Image :=
  if auto_detect_skin_type img = "slim" then img
  else applyJobs blank (narrowJobs img)

/-- `alex_to_steve` paste jobs: for layer1 then layer2, right_arm then
    left_arm, part 1 then part 2, crop the slim rectangle, duplicate the
    two columns of `insert_columns` in the given order (with `i = 1`:
    right part 1 `[3+i, i] = [4, 1]`, right part 2 `[11+(2-i), 4+i] =
    [12, 5]`, left part 1 `[3+(2-i), 2-i] = [4, 1]`, left part 2
    `[11+i, 4+(2-i)] = [12, 5]`) and paste at the regular rectangle. -/
def widenJobs (img : Image) : List (Piece × Rect) :=
  [(widenPart (crop img (shrinkR2 right_arm1_layer1)) 4 1, right_arm1_layer1),
   (widenPart (crop img (shrinkR2 right_arm2_layer1)) 12 5, right_arm2_layer1),
   (widenPart (crop img (shrinkR2 left_arm1_layer1)) 4 1, left_arm1_layer1),
   (widenPart (crop img (shrinkR2 left_arm2_layer1)) 12 5, left_arm2_layer1),
   (widenPart (crop img (shrinkR2 right_arm1_layer2)) 4 1, right_arm1_layer2),
   (widenPart (crop img (shrinkR2 right_arm2_layer2)) 12 5, right_arm2_layer2),
   (widenPart (crop img (shrinkR2 left_arm1_layer2)) 4 1, left_arm1_layer2),
   (widenPart (crop img (shrinkR2 left_arm2_layer2)) 12 5, left_arm2_layer2)]

/-- `alex_to_steve`: re-detect the skin type; a regular skin is
    returned unchanged, otherwise the arm parts are widened onto a
    blank canvas. -/
def alex_to_steve (img : Image) : Image :=
  if auto_detect_skin_type img = "regular" then img
  else applyJobs blank (widenJobs img)

/-! ## `MCSkinTools.convert_skin_type`

The instance's stored `self.skin_type` is made an explicit argument
(`none` for a freshly constructed `MCSkinTools()`; the constructor
default is `skin_type=None`). -/
def convert_skin_type (selfType : Option String) (img : Image)
    (targetType : Option String) : Option Image :=
  let target? : Option String :=
    match targetType with
    | none =>
      let st := match selfType with
                | none => auto_detect_skin_type img
                | some t => t
      if st = "steve" ∨ st = "regular" then some "alex"
      else if st = "alex" ∨ st = "slim" then some "steve"
      else none
    | some t =>
      if t = "steve" ∨ t = "alex" ∨ t = "regular" ∨ t = "slim" then some t
      else none
  match target? with
  | none => none
  | some t =>
    if t = "steve" ∨ t = "regular" then some (alex_to_steve img)
    else if t = "alex" ∨ t = "slim" then some (steve_to_alex img)
    else none

/-! ## `MCSkinFileProcessor.convert_skin_64x32_to_64x64` -/

/-- Outcome of the file-processor expand: success with no new image for
    an already-64x64 input, failure with no image for any other
    non-64x32 size, or success with the converted image. -/
inductive ProcessOutcome where
  | alreadyConverted : ProcessOutcome
  | dimensionMismatch : ProcessOutcome
  | converted : Image → ProcessOutcome

/-- The processor checks `_verify_skin_dimensions(img, (64, 64))` first
    (success without transformation), then
    `_verify_skin_dimensions(img, (64, 32))` (failure when it does not
    hold), and only then converts. -/
def processor_convert_skin_64x32_to_64x64 (wd ht : Nat) (img : Image) :
    ProcessOutcome :=
  if wd = 64 ∧ ht = 64 then .alreadyConverted
  else if ¬(wd = 64 ∧ ht = 32) then .dimensionMismatch
  else .converted (convert_skin_64x32_to_64x64 img)

/-! ## Concrete test images used by the witness statements -/

/-- A 64x64 image whose only opaque pixel sits at (51, 16): the
    rightmost column of right_arm1_layer1. -/
def wideEdgeImg : Image :=
  fun x y => if x = 51 ∧ y = 16 then (0, 255, 0, 255) else transparent

/-- A 64x64 image whose only opaque pixel sits at (50, 16): the
    second-to-last column of right_arm1_layer1, which Wide→Narrow
    conversion deletes. -/
def wideInnerImg : Image :=
  fun x y => if x = 50 ∧ y = 16 then (0, 255, 0, 255) else transparent

/-- The footprint of one paste job at coordinate (x, y). -/
abbrev jobHits (j : Piece × Rect) (x y : Nat) : Prop :=
  j.2.l ≤ x ∧ x < j.2.l + j.1.w ∧ j.2.t ≤ y ∧ y < j.2.t + j.1.h

/-- The footprint of one crop-and-paste pair at coordinate (x, y). -/
abbrev hitsPair (pr : Rect × Rect) (x y : Nat) : Prop :=
  pr.2.l ≤ x ∧ x < pr.2.l + (pr.1.r - pr.1.l) ∧
  pr.2.t ≤ y ∧ y < pr.2.t + (pr.1.b - pr.1.t)

/-! ## Pointwise characterization of paste-job chains -/

theorem pastePiece_apply_out (dst : Image) (p : Piece) (c : Rect) (x y : Nat)
    (h : ¬ jobHits (p, c) x y) : pastePiece dst p c x y = dst x y := by
  simp only [pastePiece, paste]
  rw [if_neg]
  exact h

theorem pastePiece_apply_in (dst : Image) (p : Piece) (c : Rect) (x y : Nat)
    (h : jobHits (p, c) x y) :
    pastePiece dst p c x y = p.pix (x - c.l) (y - c.t) := by
  simp only [pastePiece, paste]
  rw [if_pos]
  exact h

theorem applyJobs_append (init : Image) (a b : List (Piece × Rect)) :
    applyJobs init (a ++ b) = applyJobs (applyJobs init a) b := by
  induction a generalizing init with
  | nil => rfl
  | cons j rest ih => simpa [applyJobs] using ih (pastePiece init j.1 j.2)

theorem applyJobs_miss (init : Image) (js : List (Piece × Rect)) (x y : Nat)
    (h : ∀ j ∈ js, ¬ jobHits j x y) : applyJobs init js x y = init x y := by
  induction js generalizing init with
  | nil => rfl
  | cons j rest ih =>
    rw [applyJobs, ih _ (fun q hq => h q (List.mem_cons_of_mem _ hq)),
      pastePiece_apply_out _ _ _ _ _ (h j (List.mem_cons_self _ _))]

theorem applyJobs_get_hit (init : Image) (js : List (Piece × Rect)) (k : Nat)
    (hk : k < js.length) (x y : Nat) (h : jobHits js[k] x y)
    (hmiss : ∀ j ∈ js.drop (k + 1), ¬ jobHits j x y) :
    applyJobs init js x y = (js[k]).1.pix (x - (js[k]).2.l) (y - (js[k]).2.t) := by
  conv_lhs => rw [← List.take_append_drop k js, List.drop_eq_getElem_cons hk]
  rw [applyJobs_append, applyJobs, applyJobs_miss _ _ _ _ hmiss]
  exact pastePiece_apply_in _ _ _ _ _ h

theorem applyPairs_miss (src init : Image) (ps : List (Rect × Rect)) (x y : Nat)
    (h : ∀ pr ∈ ps, ¬ hitsPair pr x y) : applyPairs src init ps x y = init x y := by
  refine applyJobs_miss _ _ _ _ ?_
  intro j hj
  rw [List.mem_map] at hj
  obtain ⟨pr, hpr, rfl⟩ := hj
  exact h pr hpr

theorem applyPairs_get_hit (src init : Image) (ps : List (Rect × Rect)) (k : Nat)
    (hk : k < ps.length) (x y : Nat) (h : hitsPair ps[k] x y)
    (hmiss : ∀ pr ∈ ps.drop (k + 1), ¬ hitsPair pr x y) :
    applyPairs src init ps x y =
      src ((ps[k]).1.l + (x - (ps[k]).2.l)) ((ps[k]).1.t + (y - (ps[k]).2.t)) := by
  have hk2 : k < (ps.map fun pr => (crop src pr.1, pr.2)).length := by simpa using hk
  have hres := applyJobs_get_hit init (ps.map fun pr => (crop src pr.1, pr.2)) k hk2 x y
    (by rw [List.getElem_map]; exact h)
    (by rw [← List.map_drop]
        intro j hj
        rw [List.mem_map] at hj
        obtain ⟨pr, hpr, rfl⟩ := hj
        exact hmiss pr hpr)
  rw [List.getElem_map] at hres
  exact hres

theorem applyJobs_hit_at (init : Image) (l1 l2 : List (Piece × Rect))
    (j : Piece × Rect) (x y : Nat) (h : jobHits j x y)
    (hmiss : ∀ q ∈ l2, ¬ jobHits q x y) :
    applyJobs init (l1 ++ j :: l2) x y = j.1.pix (x - j.2.l) (y - j.2.t) := by
  rw [applyJobs_append, applyJobs, applyJobs_miss _ _ _ _ hmiss]
  exact pastePiece_apply_in _ _ _ _ _ h

theorem applyPairs_hit_at (src init : Image) (l1 l2 : List (Rect × Rect))
    (pr : Rect × Rect) (x y : Nat) (h : hitsPair pr x y)
    (hmiss : ∀ q ∈ l2, ¬ hitsPair q x y) :
    applyPairs src init (l1 ++ pr :: l2) x y =
      src (pr.1.l + (x - pr.2.l)) (pr.1.t + (y - pr.2.t)) := by
  unfold applyPairs
  rw [List.map_append, List.map_cons]
  refine (applyJobs_hit_at init _ _ _ x y h ?_).trans rfl
  intro q hq
  rw [List.mem_map] at hq
  obtain ⟨pr2, hpr2, rfl⟩ := hq
  exact hmiss pr2 hpr2


set_option maxHeartbeats 4000000 in
/-- C1: for every valid 64x32 input image, `expand` produces an output in
which each Named Part of layer1's head, body, right_arm and right_leg,
and of layer2's head, equals the input crop of the same rectangle pasted
at identical coordinates, and all layer2 non-head regions are
transparent. -/
theorem expand_copies_legacy_and_blanks_layer2 (img : Image) (x y : Nat) :
    (∀ c ∈ [head1_layer1,
        head2_layer1,
        body1_layer1,
        body2_layer1,
        right_arm1_layer1,
        right_arm2_layer1,
        right_leg1_layer1,
        right_leg2_layer1,
        head1_layer2,
        head2_layer2],
       inRect c x y → convert_skin_64x32_to_64x64 img x y = img x y) ∧
    (∀ c ∈ [body1_layer2,
        body2_layer2,
        right_arm1_layer2,
        right_arm2_layer2,
        left_arm1_layer2,
        left_arm2_layer2,
        right_leg1_layer2,
        right_leg2_layer2,
        left_leg1_layer2,
        left_leg2_layer2],
       inRect c x y → convert_skin_64x32_to_64x64 img x y = transparent) := by
  constructor
  · intro c hc
    fin_cases hc
    · intro h
      simp only [inRect, head1_layer1] at h
      simp only [convert_skin_64x32_to_64x64]
      refine (applyPairs_get_hit img blank expandPairs 0 (by decide) x y ?_ ?_).trans ?_
      · simp [expandPairs, hitsPair]
        omega
      · intro pr hpr
        simp only [expandPairs] at hpr
        fin_cases hpr <;> simp [hitsPair] <;> omega
      · simp [expandPairs]
        congr 1 <;> omega
    · intro h
      simp only [inRect, head2_layer1] at h
      simp only [convert_skin_64x32_to_64x64]
      refine (applyPairs_get_hit img blank expandPairs 1 (by decide) x y ?_ ?_).trans ?_
      · simp [expandPairs, hitsPair]
        omega
      · intro pr hpr
        simp only [expandPairs] at hpr
        fin_cases hpr <;> simp [hitsPair] <;> omega
      · simp [expandPairs]
        congr 1 <;> omega
    · intro h
      simp only [inRect, body1_layer1] at h
      simp only [convert_skin_64x32_to_64x64]
      refine (applyPairs_get_hit img blank expandPairs 2 (by decide) x y ?_ ?_).trans ?_
      · simp [expandPairs, hitsPair]
        omega
      · intro pr hpr
        simp only [expandPairs] at hpr
        fin_cases hpr <;> simp [hitsPair] <;> omega
      · simp [expandPairs]
        congr 1 <;> omega
    · intro h
      simp only [inRect, body2_layer1] at h
      simp only [convert_skin_64x32_to_64x64]
      refine (applyPairs_get_hit img blank expandPairs 3 (by decide) x y ?_ ?_).trans ?_
      · simp [expandPairs, hitsPair]
        omega
      · intro pr hpr
        simp only [expandPairs] at hpr
        fin_cases hpr <;> simp [hitsPair] <;> omega
      · simp [expandPairs]
        congr 1 <;> omega
    · intro h
      simp only [inRect, right_arm1_layer1] at h
      simp only [convert_skin_64x32_to_64x64]
      refine (applyPairs_get_hit img blank expandPairs 4 (by decide) x y ?_ ?_).trans ?_
      · simp [expandPairs, hitsPair]
        omega
      · intro pr hpr
        simp only [expandPairs] at hpr
        fin_cases hpr <;> simp [hitsPair] <;> omega
      · simp [expandPairs]
        congr 1 <;> omega
    · intro h
      simp only [inRect, right_arm2_layer1] at h
      simp only [convert_skin_64x32_to_64x64]
      refine (applyPairs_get_hit img blank expandPairs 5 (by decide) x y ?_ ?_).trans ?_
      · simp [expandPairs, hitsPair]
        omega
      · intro pr hpr
        simp only [expandPairs] at hpr
        fin_cases hpr <;> simp [hitsPair] <;> omega
      · simp [expandPairs]
        congr 1 <;> omega
    · intro h
      simp only [inRect, right_leg1_layer1] at h
      simp only [convert_skin_64x32_to_64x64]
      refine (applyPairs_get_hit img blank expandPairs 6 (by decide) x y ?_ ?_).trans ?_
      · simp [expandPairs, hitsPair]
        omega
      · intro pr hpr
        simp only [expandPairs] at hpr
        fin_cases hpr <;> simp [hitsPair] <;> omega
      · simp [expandPairs]
        congr 1 <;> omega
    · intro h
      simp only [inRect, right_leg2_layer1] at h
      simp only [convert_skin_64x32_to_64x64]
      refine (applyPairs_get_hit img blank expandPairs 7 (by decide) x y ?_ ?_).trans ?_
      · simp [expandPairs, hitsPair]
        omega
      · intro pr hpr
        simp only [expandPairs] at hpr
        fin_cases hpr <;> simp [hitsPair] <;> omega
      · simp [expandPairs]
        congr 1 <;> omega
    · intro h
      simp only [inRect, head1_layer2] at h
      simp only [convert_skin_64x32_to_64x64]
      refine (applyPairs_get_hit img blank expandPairs 8 (by decide) x y ?_ ?_).trans ?_
      · simp [expandPairs, hitsPair]
        omega
      · intro pr hpr
        simp only [expandPairs] at hpr
        fin_cases hpr <;> simp [hitsPair] <;> omega
      · simp [expandPairs]
        congr 1 <;> omega
    · intro h
      simp only [inRect, head2_layer2] at h
      simp only [convert_skin_64x32_to_64x64]
      refine (applyPairs_get_hit img blank expandPairs 9 (by decide) x y ?_ ?_).trans ?_
      · simp [expandPairs, hitsPair]
        omega
      · intro pr hpr
        simp only [expandPairs] at hpr
        fin_cases hpr <;> simp [hitsPair] <;> omega
      · simp [expandPairs]
        congr 1 <;> omega
  · intro c hc
    fin_cases hc <;>
    · intro h
      simp only [inRect] at h
      simp at h
      simp only [convert_skin_64x32_to_64x64]
      refine (applyPairs_miss img blank expandPairs x y ?_).trans rfl
      intro pr hpr
      simp only [expandPairs] at hpr
      fin_cases hpr <;> simp [hitsPair] <;> omega



set_option maxHeartbeats 2000000 in
/-- C3: for every valid 64x32 input, the expand output's left_arm and
left_leg layer1 rectangles contain exactly the input crops of the
matching-ordinal right_arm and right_leg layer1 rectangles, copied
verbatim with no geometric flip (the output pixel at offset (dx, dy)
inside the left rectangle is the input pixel at the same offset inside
the right rectangle). -/
theorem expand_left_limbs_verbatim_from_right (img : Image) (x y : Nat) :
    (inRect left_arm1_layer1 x y →
      convert_skin_64x32_to_64x64 img x y =
        img (right_arm1_layer1.l + (x - left_arm1_layer1.l)) (right_arm1_layer1.t + (y - left_arm1_layer1.t))) ∧
    (inRect left_arm2_layer1 x y →
      convert_skin_64x32_to_64x64 img x y =
        img (right_arm2_layer1.l + (x - left_arm2_layer1.l)) (right_arm2_layer1.t + (y - left_arm2_layer1.t))) ∧
    (inRect left_leg1_layer1 x y →
      convert_skin_64x32_to_64x64 img x y =
        img (right_leg1_layer1.l + (x - left_leg1_layer1.l)) (right_leg1_layer1.t + (y - left_leg1_layer1.t))) ∧
    (inRect left_leg2_layer1 x y →
      convert_skin_64x32_to_64x64 img x y =
        img (right_leg2_layer1.l + (x - left_leg2_layer1.l)) (right_leg2_layer1.t + (y - left_leg2_layer1.t))) := by
  refine ⟨?_, ?_, ?_, ?_⟩
  · intro h
    simp only [inRect, left_arm1_layer1] at h
    simp only [convert_skin_64x32_to_64x64]
    refine (applyPairs_get_hit img blank expandPairs 10 (by decide) x y ?_ ?_).trans ?_
    · simp [expandPairs, hitsPair]
      omega
    · intro pr hpr
      simp only [expandPairs] at hpr
      fin_cases hpr <;> simp [hitsPair] <;> omega
    · simp [expandPairs]
      try congr 1 <;> omega
  · intro h
    simp only [inRect, left_arm2_layer1] at h
    simp only [convert_skin_64x32_to_64x64]
    refine (applyPairs_get_hit img blank expandPairs 11 (by decide) x y ?_ ?_).trans ?_
    · simp [expandPairs, hitsPair]
      omega
    · intro pr hpr
      simp only [expandPairs] at hpr
      fin_cases hpr <;> simp [hitsPair] <;> omega
    · simp [expandPairs]
      try congr 1 <;> omega
  · intro h
    simp only [inRect, left_leg1_layer1] at h
    simp only [convert_skin_64x32_to_64x64]
    refine (applyPairs_get_hit img blank expandPairs 12 (by decide) x y ?_ ?_).trans ?_
    · simp [expandPairs, hitsPair]
      omega
    · intro pr hpr
      simp only [expandPairs] at hpr
      fin_cases hpr <;> simp [hitsPair] <;> omega
    · simp [expandPairs]
      try congr 1 <;> omega
  · intro h
    simp only [inRect, left_leg2_layer1] at h
    simp only [convert_skin_64x32_to_64x64]
    refine (applyPairs_get_hit img blank expandPairs 13 (by decide) x y ?_ ?_).trans ?_
    · simp [expandPairs, hitsPair]
      omega
    · intro pr hpr
      simp only [expandPairs] at hpr
      fin_cases hpr <;> simp [hitsPair] <;> omega
    · simp [expandPairs]
      try congr 1 <;> omega



set_option maxHeartbeats 4000000 in
/-- C2: for every 64x64 input image, applying swapLayers twice yields an
image that equals the input on every pixel inside the union of all
tabled rectangles (of both layers) and is transparent on every pixel
outside that union. -/
theorem swap_twice_restores_tabled_regions (img : Image) (x y : Nat) :
    (∀ c ∈ tabledRects, inRect c x y → twice_swap_skin_layer img x y = img x y) ∧
    ((∀ c ∈ tabledRects, ¬ inRect c x y) → twice_swap_skin_layer img x y = transparent) := by
  constructor
  · intro c hc
    simp only [tabledRects, layer1Parts, layer2Parts] at hc
    fin_cases hc
    · intro h
      simp only [inRect, head1_layer1] at h
      show applyPairs (swap_skin_layer2_to_layer1 img) blank swapPairs x y = img x y
      refine (applyPairs_hit_at (swap_skin_layer2_to_layer1 img) blank
        (swapPairs.take 12) (swapPairs.drop 13) (head1_layer2, head1_layer1) x y ?_ ?_).trans ?_
      · simp only [hitsPair, head1_layer2, head1_layer1]
        omega
      · intro pr hpr
        simp only [swapPairs] at hpr
        fin_cases hpr <;> simp only [hitsPair, head1_layer1, head2_layer1, body1_layer1, body2_layer1, right_arm1_layer1, right_arm2_layer1, left_arm1_layer1, left_arm2_layer1, right_leg1_layer1, right_leg2_layer1, left_leg1_layer1, left_leg2_layer1, head1_layer2, head2_layer2, body1_layer2, body2_layer2, right_arm1_layer2, right_arm2_layer2, left_arm1_layer2, left_arm2_layer2, right_leg1_layer2, right_leg2_layer2, left_leg1_layer2, left_leg2_layer2] <;> omega
      · show applyPairs img blank swapPairs _ _ = img x y
        refine (applyPairs_hit_at img blank
          (swapPairs.take 0) (swapPairs.drop 1) (head1_layer1, head1_layer2) _ _ ?_ ?_).trans ?_
        · simp only [hitsPair, head1_layer2, head1_layer1]
          omega
        · intro pr hpr
          simp only [swapPairs] at hpr
          fin_cases hpr <;> simp only [hitsPair, head1_layer1, head2_layer1, body1_layer1, body2_layer1, right_arm1_layer1, right_arm2_layer1, left_arm1_layer1, left_arm2_layer1, right_leg1_layer1, right_leg2_layer1, left_leg1_layer1, left_leg2_layer1, head1_layer2, head2_layer2, body1_layer2, body2_layer2, right_arm1_layer2, right_arm2_layer2, left_arm1_layer2, left_arm2_layer2, right_leg1_layer2, right_leg2_layer2, left_leg1_layer2, left_leg2_layer2] <;> omega
        · simp only [head1_layer2, head1_layer1]
          try congr 1 <;> omega
    · intro h
      simp only [inRect, head2_layer1] at h
      show applyPairs (swap_skin_layer2_to_layer1 img) blank swapPairs x y = img x y
      refine (applyPairs_hit_at (swap_skin_layer2_to_layer1 img) blank
        (swapPairs.take 13) (swapPairs.drop 14) (head2_layer2, head2_layer1) x y ?_ ?_).trans ?_
      · simp only [hitsPair, head2_layer2, head2_layer1]
        omega
      · intro pr hpr
        simp only [swapPairs] at hpr
        fin_cases hpr <;> simp only [hitsPair, head1_layer1, head2_layer1, body1_layer1, body2_layer1, right_arm1_layer1, right_arm2_layer1, left_arm1_layer1, left_arm2_layer1, right_leg1_layer1, right_leg2_layer1, left_leg1_layer1, left_leg2_layer1, head1_layer2, head2_layer2, body1_layer2, body2_layer2, right_arm1_layer2, right_arm2_layer2, left_arm1_layer2, left_arm2_layer2, right_leg1_layer2, right_leg2_layer2, left_leg1_layer2, left_leg2_layer2] <;> omega
      · show applyPairs img blank swapPairs _ _ = img x y
        refine (applyPairs_hit_at img blank
          (swapPairs.take 1) (swapPairs.drop 2) (head2_layer1, head2_layer2) _ _ ?_ ?_).trans ?_
        · simp only [hitsPair, head2_layer2, head2_layer1]
          omega
        · intro pr hpr
          simp only [swapPairs] at hpr
          fin_cases hpr <;> simp only [hitsPair, head1_layer1, head2_layer1, body1_layer1, body2_layer1, right_arm1_layer1, right_arm2_layer1, left_arm1_layer1, left_arm2_layer1, right_leg1_layer1, right_leg2_layer1, left_leg1_layer1, left_leg2_layer1, head1_layer2, head2_layer2, body1_layer2, body2_layer2, right_arm1_layer2, right_arm2_layer2, left_arm1_layer2, left_arm2_layer2, right_leg1_layer2, right_leg2_layer2, left_leg1_layer2, left_leg2_layer2] <;> omega
        · simp only [head2_layer2, head2_layer1]
          try congr 1 <;> omega
    · intro h
      simp only [inRect, body1_layer1] at h
      show applyPairs (swap_skin_layer2_to_layer1 img) blank swapPairs x y = img x y
      refine (applyPairs_hit_at (swap_skin_layer2_to_layer1 img) blank
        (swapPairs.take 14) (swapPairs.drop 15) (body1_layer2, body1_layer1) x y ?_ ?_).trans ?_
      · simp only [hitsPair, body1_layer2, body1_layer1]
        omega
      · intro pr hpr
        simp only [swapPairs] at hpr
        fin_cases hpr <;> simp only [hitsPair, head1_layer1, head2_layer1, body1_layer1, body2_layer1, right_arm1_layer1, right_arm2_layer1, left_arm1_layer1, left_arm2_layer1, right_leg1_layer1, right_leg2_layer1, left_leg1_layer1, left_leg2_layer1, head1_layer2, head2_layer2, body1_layer2, body2_layer2, right_arm1_layer2, right_arm2_layer2, left_arm1_layer2, left_arm2_layer2, right_leg1_layer2, right_leg2_layer2, left_leg1_layer2, left_leg2_layer2] <;> omega
      · show applyPairs img blank swapPairs _ _ = img x y
        refine (applyPairs_hit_at img blank
          (swapPairs.take 2) (swapPairs.drop 3) (body1_layer1, body1_layer2) _ _ ?_ ?_).trans ?_
        · simp only [hitsPair, body1_layer2, body1_layer1]
          omega
        · intro pr hpr
          simp only [swapPairs] at hpr
          fin_cases hpr <;> simp only [hitsPair, head1_layer1, head2_layer1, body1_layer1, body2_layer1, right_arm1_layer1, right_arm2_layer1, left_arm1_layer1, left_arm2_layer1, right_leg1_layer1, right_leg2_layer1, left_leg1_layer1, left_leg2_layer1, head1_layer2, head2_layer2, body1_layer2, body2_layer2, right_arm1_layer2, right_arm2_layer2, left_arm1_layer2, left_arm2_layer2, right_leg1_layer2, right_leg2_layer2, left_leg1_layer2, left_leg2_layer2] <;> omega
        · simp only [body1_layer2, body1_layer1]
          try congr 1 <;> omega
    · intro h
      simp only [inRect, body2_layer1] at h
      show applyPairs (swap_skin_layer2_to_layer1 img) blank swapPairs x y = img x y
      refine (applyPairs_hit_at (swap_skin_layer2_to_layer1 img) blank
        (swapPairs.take 15) (swapPairs.drop 16) (body2_layer2, body2_layer1) x y ?_ ?_).trans ?_
      · simp only [hitsPair, body2_layer2, body2_layer1]
        omega
      · intro pr hpr
        simp only [swapPairs] at hpr
        fin_cases hpr <;> simp only [hitsPair, head1_layer1, head2_layer1, body1_layer1, body2_layer1, right_arm1_layer1, right_arm2_layer1, left_arm1_layer1, left_arm2_layer1, right_leg1_layer1, right_leg2_layer1, left_leg1_layer1, left_leg2_layer1, head1_layer2, head2_layer2, body1_layer2, body2_layer2, right_arm1_layer2, right_arm2_layer2, left_arm1_layer2, left_arm2_layer2, right_leg1_layer2, right_leg2_layer2, left_leg1_layer2, left_leg2_layer2] <;> omega
      · show applyPairs img blank swapPairs _ _ = img x y
        refine (applyPairs_hit_at img blank
          (swapPairs.take 3) (swapPairs.drop 4) (body2_layer1, body2_layer2) _ _ ?_ ?_).trans ?_
        · simp only [hitsPair, body2_layer2, body2_layer1]
          omega
        · intro pr hpr
          simp only [swapPairs] at hpr
          fin_cases hpr <;> simp only [hitsPair, head1_layer1, head2_layer1, body1_layer1, body2_layer1, right_arm1_layer1, right_arm2_layer1, left_arm1_layer1, left_arm2_layer1, right_leg1_layer1, right_leg2_layer1, left_leg1_layer1, left_leg2_layer1, head1_layer2, head2_layer2, body1_layer2, body2_layer2, right_arm1_layer2, right_arm2_layer2, left_arm1_layer2, left_arm2_layer2, right_leg1_layer2, right_leg2_layer2, left_leg1_layer2, left_leg2_layer2] <;> omega
        · simp only [body2_layer2, body2_layer1]
          try congr 1 <;> omega
    · intro h
      simp only [inRect, right_arm1_layer1] at h
      show applyPairs (swap_skin_layer2_to_layer1 img) blank swapPairs x y = img x y
      refine (applyPairs_hit_at (swap_skin_layer2_to_layer1 img) blank
        (swapPairs.take 16) (swapPairs.drop 17) (right_arm1_layer2, right_arm1_layer1) x y ?_ ?_).trans ?_
      · simp only [hitsPair, right_arm1_layer2, right_arm1_layer1]
        omega
      · intro pr hpr
        simp only [swapPairs] at hpr
        fin_cases hpr <;> simp only [hitsPair, head1_layer1, head2_layer1, body1_layer1, body2_layer1, right_arm1_layer1, right_arm2_layer1, left_arm1_layer1, left_arm2_layer1, right_leg1_layer1, right_leg2_layer1, left_leg1_layer1, left_leg2_layer1, head1_layer2, head2_layer2, body1_layer2, body2_layer2, right_arm1_layer2, right_arm2_layer2, left_arm1_layer2, left_arm2_layer2, right_leg1_layer2, right_leg2_layer2, left_leg1_layer2, left_leg2_layer2] <;> omega
      · show applyPairs img blank swapPairs _ _ = img x y
        refine (applyPairs_hit_at img blank
          (swapPairs.take 4) (swapPairs.drop 5) (right_arm1_layer1, right_arm1_layer2) _ _ ?_ ?_).trans ?_
        · simp only [hitsPair, right_arm1_layer2, right_arm1_layer1]
          omega
        · intro pr hpr
          simp only [swapPairs] at hpr
          fin_cases hpr <;> simp only [hitsPair, head1_layer1, head2_layer1, body1_layer1, body2_layer1, right_arm1_layer1, right_arm2_layer1, left_arm1_layer1, left_arm2_layer1, right_leg1_layer1, right_leg2_layer1, left_leg1_layer1, left_leg2_layer1, head1_layer2, head2_layer2, body1_layer2, body2_layer2, right_arm1_layer2, right_arm2_layer2, left_arm1_layer2, left_arm2_layer2, right_leg1_layer2, right_leg2_layer2, left_leg1_layer2, left_leg2_layer2] <;> omega
        · simp only [right_arm1_layer2, right_arm1_layer1]
          try congr 1 <;> omega
    · intro h
      simp only [inRect, right_arm2_layer1] at h
      show applyPairs (swap_skin_layer2_to_layer1 img) blank swapPairs x y = img x y
      refine (applyPairs_hit_at (swap_skin_layer2_to_layer1 img) blank
        (swapPairs.take 17) (swapPairs.drop 18) (right_arm2_layer2, right_arm2_layer1) x y ?_ ?_).trans ?_
      · simp only [hitsPair, right_arm2_layer2, right_arm2_layer1]
        omega
      · intro pr hpr
        simp only [swapPairs] at hpr
        fin_cases hpr <;> simp only [hitsPair, head1_layer1, head2_layer1, body1_layer1, body2_layer1, right_arm1_layer1, right_arm2_layer1, left_arm1_layer1, left_arm2_layer1, right_leg1_layer1, right_leg2_layer1, left_leg1_layer1, left_leg2_layer1, head1_layer2, head2_layer2, body1_layer2, body2_layer2, right_arm1_layer2, right_arm2_layer2, left_arm1_layer2, left_arm2_layer2, right_leg1_layer2, right_leg2_layer2, left_leg1_layer2, left_leg2_layer2] <;> omega
      · show applyPairs img blank swapPairs _ _ = img x y
        refine (applyPairs_hit_at img blank
          (swapPairs.take 5) (swapPairs.drop 6) (right_arm2_layer1, right_arm2_layer2) _ _ ?_ ?_).trans ?_
        · simp only [hitsPair, right_arm2_layer2, right_arm2_layer1]
          omega
        · intro pr hpr
          simp only [swapPairs] at hpr
          fin_cases hpr <;> simp only [hitsPair, head1_layer1, head2_layer1, body1_layer1, body2_layer1, right_arm1_layer1, right_arm2_layer1, left_arm1_layer1, left_arm2_layer1, right_leg1_layer1, right_leg2_layer1, left_leg1_layer1, left_leg2_layer1, head1_layer2, head2_layer2, body1_layer2, body2_layer2, right_arm1_layer2, right_arm2_layer2, left_arm1_layer2, left_arm2_layer2, right_leg1_layer2, right_leg2_layer2, left_leg1_layer2, left_leg2_layer2] <;> omega
        · simp only [right_arm2_layer2, right_arm2_layer1]
          try congr 1 <;> omega
    · intro h
      simp only [inRect, left_arm1_layer1] at h
      show applyPairs (swap_skin_layer2_to_layer1 img) blank swapPairs x y = img x y
      refine (applyPairs_hit_at (swap_skin_layer2_to_layer1 img) blank
        (swapPairs.take 18) (swapPairs.drop 19) (left_arm1_layer2, left_arm1_layer1) x y ?_ ?_).trans ?_
      · simp only [hitsPair, left_arm1_layer2, left_arm1_layer1]
        omega
      · intro pr hpr
        simp only [swapPairs] at hpr
        fin_cases hpr <;> simp only [hitsPair, head1_layer1, head2_layer1, body1_layer1, body2_layer1, right_arm1_layer1, right_arm2_layer1, left_arm1_layer1, left_arm2_layer1, right_leg1_layer1, right_leg2_layer1, left_leg1_layer1, left_leg2_layer1, head1_layer2, head2_layer2, body1_layer2, body2_layer2, right_arm1_layer2, right_arm2_layer2, left_arm1_layer2, left_arm2_layer2, right_leg1_layer2, right_leg2_layer2, left_leg1_layer2, left_leg2_layer2] <;> omega
      · show applyPairs img blank swapPairs _ _ = img x y
        refine (applyPairs_hit_at img blank
          (swapPairs.take 6) (swapPairs.drop 7) (left_arm1_layer1, left_arm1_layer2) _ _ ?_ ?_).trans ?_
        · simp only [hitsPair, left_arm1_layer2, left_arm1_layer1]
          omega
        · intro pr hpr
          simp only [swapPairs] at hpr
          fin_cases hpr <;> simp only [hitsPair, head1_layer1, head2_layer1, body1_layer1, body2_layer1, right_arm1_layer1, right_arm2_layer1, left_arm1_layer1, left_arm2_layer1, right_leg1_layer1, right_leg2_layer1, left_leg1_layer1, left_leg2_layer1, head1_layer2, head2_layer2, body1_layer2, body2_layer2, right_arm1_layer2, right_arm2_layer2, left_arm1_layer2, left_arm2_layer2, right_leg1_layer2, right_leg2_layer2, left_leg1_layer2, left_leg2_layer2] <;> omega
        · simp only [left_arm1_layer2, left_arm1_layer1]
          try congr 1 <;> omega
    · intro h
      simp only [inRect, left_arm2_layer1] at h
      show applyPairs (swap_skin_layer2_to_layer1 img) blank swapPairs x y = img x y
      refine (applyPairs_hit_at (swap_skin_layer2_to_layer1 img) blank
        (swapPairs.take 19) (swapPairs.drop 20) (left_arm2_layer2, left_arm2_layer1) x y ?_ ?_).trans ?_
      · simp only [hitsPair, left_arm2_layer2, left_arm2_layer1]
        omega
      · intro pr hpr
        simp only [swapPairs] at hpr
        fin_cases hpr <;> simp only [hitsPair, head1_layer1, head2_layer1, body1_layer1, body2_layer1, right_arm1_layer1, right_arm2_layer1, left_arm1_layer1, left_arm2_layer1, right_leg1_layer1, right_leg2_layer1, left_leg1_layer1, left_leg2_layer1, head1_layer2, head2_layer2, body1_layer2, body2_layer2, right_arm1_layer2, right_arm2_layer2, left_arm1_layer2, left_arm2_layer2, right_leg1_layer2, right_leg2_layer2, left_leg1_layer2, left_leg2_layer2] <;> omega
      · show applyPairs img blank swapPairs _ _ = img x y
        refine (applyPairs_hit_at img blank
          (swapPairs.take 7) (swapPairs.drop 8) (left_arm2_layer1, left_arm2_layer2) _ _ ?_ ?_).trans ?_
        · simp only [hitsPair, left_arm2_layer2, left_arm2_layer1]
          omega
        · intro pr hpr
          simp only [swapPairs] at hpr
          fin_cases hpr <;> simp only [hitsPair, head1_layer1, head2_layer1, body1_layer1, body2_layer1, right_arm1_layer1, right_arm2_layer1, left_arm1_layer1, left_arm2_layer1, right_leg1_layer1, right_leg2_layer1, left_leg1_layer1, left_leg2_layer1, head1_layer2, head2_layer2, body1_layer2, body2_layer2, right_arm1_layer2, right_arm2_layer2, left_arm1_layer2, left_arm2_layer2, right_leg1_layer2, right_leg2_layer2, left_leg1_layer2, left_leg2_layer2] <;> omega
        · simp only [left_arm2_layer2, left_arm2_layer1]
          try congr 1 <;> omega
    · intro h
      simp only [inRect, right_leg1_layer1] at h
      show applyPairs (swap_skin_layer2_to_layer1 img) blank swapPairs x y = img x y
      refine (applyPairs_hit_at (swap_skin_layer2_to_layer1 img) blank
        (swapPairs.take 20) (swapPairs.drop 21) (right_leg1_layer2, right_leg1_layer1) x y ?_ ?_).trans ?_
      · simp only [hitsPair, right_leg1_layer2, right_leg1_layer1]
        omega
      · intro pr hpr
        simp only [swapPairs] at hpr
        fin_cases hpr <;> simp only [hitsPair, head1_layer1, head2_layer1, body1_layer1, body2_layer1, right_arm1_layer1, right_arm2_layer1, left_arm1_layer1, left_arm2_layer1, right_leg1_layer1, right_leg2_layer1, left_leg1_layer1, left_leg2_layer1, head1_layer2, head2_layer2, body1_layer2, body2_layer2, right_arm1_layer2, right_arm2_layer2, left_arm1_layer2, left_arm2_layer2, right_leg1_layer2, right_leg2_layer2, left_leg1_layer2, left_leg2_layer2] <;> omega
      · show applyPairs img blank swapPairs _ _ = img x y
        refine (applyPairs_hit_at img blank
          (swapPairs.take 8) (swapPairs.drop 9) (right_leg1_layer1, right_leg1_layer2) _ _ ?_ ?_).trans ?_
        · simp only [hitsPair, right_leg1_layer2, right_leg1_layer1]
          omega
        · intro pr hpr
          simp only [swapPairs] at hpr
          fin_cases hpr <;> simp only [hitsPair, head1_layer1, head2_layer1, body1_layer1, body2_layer1, right_arm1_layer1, right_arm2_layer1, left_arm1_layer1, left_arm2_layer1, right_leg1_layer1, right_leg2_layer1, left_leg1_layer1, left_leg2_layer1, head1_layer2, head2_layer2, body1_layer2, body2_layer2, right_arm1_layer2, right_arm2_layer2, left_arm1_layer2, left_arm2_layer2, right_leg1_layer2, right_leg2_layer2, left_leg1_layer2, left_leg2_layer2] <;> omega
        · simp only [right_leg1_layer2, right_leg1_layer1]
          try congr 1 <;> omega
    · intro h
      simp only [inRect, right_leg2_layer1] at h
      show applyPairs (swap_skin_layer2_to_layer1 img) blank swapPairs x y = img x y
      refine (applyPairs_hit_at (swap_skin_layer2_to_layer1 img) blank
        (swapPairs.take 21) (swapPairs.drop 22) (right_leg2_layer2, right_leg2_layer1) x y ?_ ?_).trans ?_
      · simp only [hitsPair, right_leg2_layer2, right_leg2_layer1]
        omega
      · intro pr hpr
        simp only [swapPairs] at hpr
        fin_cases hpr <;> simp only [hitsPair, head1_layer1, head2_layer1, body1_layer1, body2_layer1, right_arm1_layer1, right_arm2_layer1, left_arm1_layer1, left_arm2_layer1, right_leg1_layer1, right_leg2_layer1, left_leg1_layer1, left_leg2_layer1, head1_layer2, head2_layer2, body1_layer2, body2_layer2, right_arm1_layer2, right_arm2_layer2, left_arm1_layer2, left_arm2_layer2, right_leg1_layer2, right_leg2_layer2, left_leg1_layer2, left_leg2_layer2] <;> omega
      · show applyPairs img blank swapPairs _ _ = img x y
        refine (applyPairs_hit_at img blank
          (swapPairs.take 9) (swapPairs.drop 10) (right_leg2_layer1, right_leg2_layer2) _ _ ?_ ?_).trans ?_
        · simp only [hitsPair, right_leg2_layer2, right_leg2_layer1]
          omega
        · intro pr hpr
          simp only [swapPairs] at hpr
          fin_cases hpr <;> simp only [hitsPair, head1_layer1, head2_layer1, body1_layer1, body2_layer1, right_arm1_layer1, right_arm2_layer1, left_arm1_layer1, left_arm2_layer1, right_leg1_layer1, right_leg2_layer1, left_leg1_layer1, left_leg2_layer1, head1_layer2, head2_layer2, body1_layer2, body2_layer2, right_arm1_layer2, right_arm2_layer2, left_arm1_layer2, left_arm2_layer2, right_leg1_layer2, right_leg2_layer2, left_leg1_layer2, left_leg2_layer2] <;> omega
        · simp only [right_leg2_layer2, right_leg2_layer1]
          try congr 1 <;> omega
    · intro h
      simp only [inRect, left_leg1_layer1] at h
      show applyPairs (swap_skin_layer2_to_layer1 img) blank swapPairs x y = img x y
      refine (applyPairs_hit_at (swap_skin_layer2_to_layer1 img) blank
        (swapPairs.take 22) (swapPairs.drop 23) (left_leg1_layer2, left_leg1_layer1) x y ?_ ?_).trans ?_
      · simp only [hitsPair, left_leg1_layer2, left_leg1_layer1]
        omega
      · intro pr hpr
        simp only [swapPairs] at hpr
        fin_cases hpr <;> simp only [hitsPair, head1_layer1, head2_layer1, body1_layer1, body2_layer1, right_arm1_layer1, right_arm2_layer1, left_arm1_layer1, left_arm2_layer1, right_leg1_layer1, right_leg2_layer1, left_leg1_layer1, left_leg2_layer1, head1_layer2, head2_layer2, body1_layer2, body2_layer2, right_arm1_layer2, right_arm2_layer2, left_arm1_layer2, left_arm2_layer2, right_leg1_layer2, right_leg2_layer2, left_leg1_layer2, left_leg2_layer2] <;> omega
      · show applyPairs img blank swapPairs _ _ = img x y
        refine (applyPairs_hit_at img blank
          (swapPairs.take 10) (swapPairs.drop 11) (left_leg1_layer1, left_leg1_layer2) _ _ ?_ ?_).trans ?_
        · simp only [hitsPair, left_leg1_layer2, left_leg1_layer1]
          omega
        · intro pr hpr
          simp only [swapPairs] at hpr
          fin_cases hpr <;> simp only [hitsPair, head1_layer1, head2_layer1, body1_layer1, body2_layer1, right_arm1_layer1, right_arm2_layer1, left_arm1_layer1, left_arm2_layer1, right_leg1_layer1, right_leg2_layer1, left_leg1_layer1, left_leg2_layer1, head1_layer2, head2_layer2, body1_layer2, body2_layer2, right_arm1_layer2, right_arm2_layer2, left_arm1_layer2, left_arm2_layer2, right_leg1_layer2, right_leg2_layer2, left_leg1_layer2, left_leg2_layer2] <;> omega
        · simp only [left_leg1_layer2, left_leg1_layer1]
          try congr 1 <;> omega
    · intro h
      simp only [inRect, left_leg2_layer1] at h
      show applyPairs (swap_skin_layer2_to_layer1 img) blank swapPairs x y = img x y
      refine (applyPairs_hit_at (swap_skin_layer2_to_layer1 img) blank
        (swapPairs.take 23) (swapPairs.drop 24) (left_leg2_layer2, left_leg2_layer1) x y ?_ ?_).trans ?_
      · simp only [hitsPair, left_leg2_layer2, left_leg2_layer1]
        omega
      · intro pr hpr
        simp only [swapPairs] at hpr
        fin_cases hpr <;> simp only [hitsPair, head1_layer1, head2_layer1, body1_layer1, body2_layer1, right_arm1_layer1, right_arm2_layer1, left_arm1_layer1, left_arm2_layer1, right_leg1_layer1, right_leg2_layer1, left_leg1_layer1, left_leg2_layer1, head1_layer2, head2_layer2, body1_layer2, body2_layer2, right_arm1_layer2, right_arm2_layer2, left_arm1_layer2, left_arm2_layer2, right_leg1_layer2, right_leg2_layer2, left_leg1_layer2, left_leg2_layer2] <;> omega
      · show applyPairs img blank swapPairs _ _ = img x y
        refine (applyPairs_hit_at img blank
          (swapPairs.take 11) (swapPairs.drop 12) (left_leg2_layer1, left_leg2_layer2) _ _ ?_ ?_).trans ?_
        · simp only [hitsPair, left_leg2_layer2, left_leg2_layer1]
          omega
        · intro pr hpr
          simp only [swapPairs] at hpr
          fin_cases hpr <;> simp only [hitsPair, head1_layer1, head2_layer1, body1_layer1, body2_layer1, right_arm1_layer1, right_arm2_layer1, left_arm1_layer1, left_arm2_layer1, right_leg1_layer1, right_leg2_layer1, left_leg1_layer1, left_leg2_layer1, head1_layer2, head2_layer2, body1_layer2, body2_layer2, right_arm1_layer2, right_arm2_layer2, left_arm1_layer2, left_arm2_layer2, right_leg1_layer2, right_leg2_layer2, left_leg1_layer2, left_leg2_layer2] <;> omega
        · simp only [left_leg2_layer2, left_leg2_layer1]
          try congr 1 <;> omega
    · intro h
      simp only [inRect, head1_layer2] at h
      show applyPairs (swap_skin_layer2_to_layer1 img) blank swapPairs x y = img x y
      refine (applyPairs_hit_at (swap_skin_layer2_to_layer1 img) blank
        (swapPairs.take 0) (swapPairs.drop 1) (head1_layer1, head1_layer2) x y ?_ ?_).trans ?_
      · simp only [hitsPair, head1_layer1, head1_layer2]
        omega
      · intro pr hpr
        simp only [swapPairs] at hpr
        fin_cases hpr <;> simp only [hitsPair, head1_layer1, head2_layer1, body1_layer1, body2_layer1, right_arm1_layer1, right_arm2_layer1, left_arm1_layer1, left_arm2_layer1, right_leg1_layer1, right_leg2_layer1, left_leg1_layer1, left_leg2_layer1, head1_layer2, head2_layer2, body1_layer2, body2_layer2, right_arm1_layer2, right_arm2_layer2, left_arm1_layer2, left_arm2_layer2, right_leg1_layer2, right_leg2_layer2, left_leg1_layer2, left_leg2_layer2] <;> omega
      · show applyPairs img blank swapPairs _ _ = img x y
        refine (applyPairs_hit_at img blank
          (swapPairs.take 12) (swapPairs.drop 13) (head1_layer2, head1_layer1) _ _ ?_ ?_).trans ?_
        · simp only [hitsPair, head1_layer1, head1_layer2]
          omega
        · intro pr hpr
          simp only [swapPairs] at hpr
          fin_cases hpr <;> simp only [hitsPair, head1_layer1, head2_layer1, body1_layer1, body2_layer1, right_arm1_layer1, right_arm2_layer1, left_arm1_layer1, left_arm2_layer1, right_leg1_layer1, right_leg2_layer1, left_leg1_layer1, left_leg2_layer1, head1_layer2, head2_layer2, body1_layer2, body2_layer2, right_arm1_layer2, right_arm2_layer2, left_arm1_layer2, left_arm2_layer2, right_leg1_layer2, right_leg2_layer2, left_leg1_layer2, left_leg2_layer2] <;> omega
        · simp only [head1_layer1, head1_layer2]
          try congr 1 <;> omega
    · intro h
      simp only [inRect, head2_layer2] at h
      show applyPairs (swap_skin_layer2_to_layer1 img) blank swapPairs x y = img x y
      refine (applyPairs_hit_at (swap_skin_layer2_to_layer1 img) blank
        (swapPairs.take 1) (swapPairs.drop 2) (head2_layer1, head2_layer2) x y ?_ ?_).trans ?_
      · simp only [hitsPair, head2_layer1, head2_layer2]
        omega
      · intro pr hpr
        simp only [swapPairs] at hpr
        fin_cases hpr <;> simp only [hitsPair, head1_layer1, head2_layer1, body1_layer1, body2_layer1, right_arm1_layer1, right_arm2_layer1, left_arm1_layer1, left_arm2_layer1, right_leg1_layer1, right_leg2_layer1, left_leg1_layer1, left_leg2_layer1, head1_layer2, head2_layer2, body1_layer2, body2_layer2, right_arm1_layer2, right_arm2_layer2, left_arm1_layer2, left_arm2_layer2, right_leg1_layer2, right_leg2_layer2, left_leg1_layer2, left_leg2_layer2] <;> omega
      · show applyPairs img blank swapPairs _ _ = img x y
        refine (applyPairs_hit_at img blank
          (swapPairs.take 13) (swapPairs.drop 14) (head2_layer2, head2_layer1) _ _ ?_ ?_).trans ?_
        · simp only [hitsPair, head2_layer1, head2_layer2]
          omega
        · intro pr hpr
          simp only [swapPairs] at hpr
          fin_cases hpr <;> simp only [hitsPair, head1_layer1, head2_layer1, body1_layer1, body2_layer1, right_arm1_layer1, right_arm2_layer1, left_arm1_layer1, left_arm2_layer1, right_leg1_layer1, right_leg2_layer1, left_leg1_layer1, left_leg2_layer1, head1_layer2, head2_layer2, body1_layer2, body2_layer2, right_arm1_layer2, right_arm2_layer2, left_arm1_layer2, left_arm2_layer2, right_leg1_layer2, right_leg2_layer2, left_leg1_layer2, left_leg2_layer2] <;> omega
        · simp only [head2_layer1, head2_layer2]
          try congr 1 <;> omega
    · intro h
      simp only [inRect, body1_layer2] at h
      show applyPairs (swap_skin_layer2_to_layer1 img) blank swapPairs x y = img x y
      refine (applyPairs_hit_at (swap_skin_layer2_to_layer1 img) blank
        (swapPairs.take 2) (swapPairs.drop 3) (body1_layer1, body1_layer2) x y ?_ ?_).trans ?_
      · simp only [hitsPair, body1_layer1, body1_layer2]
        omega
      · intro pr hpr
        simp only [swapPairs] at hpr
        fin_cases hpr <;> simp only [hitsPair, head1_layer1, head2_layer1, body1_layer1, body2_layer1, right_arm1_layer1, right_arm2_layer1, left_arm1_layer1, left_arm2_layer1, right_leg1_layer1, right_leg2_layer1, left_leg1_layer1, left_leg2_layer1, head1_layer2, head2_layer2, body1_layer2, body2_layer2, right_arm1_layer2, right_arm2_layer2, left_arm1_layer2, left_arm2_layer2, right_leg1_layer2, right_leg2_layer2, left_leg1_layer2, left_leg2_layer2] <;> omega
      · show applyPairs img blank swapPairs _ _ = img x y
        refine (applyPairs_hit_at img blank
          (swapPairs.take 14) (swapPairs.drop 15) (body1_layer2, body1_layer1) _ _ ?_ ?_).trans ?_
        · simp only [hitsPair, body1_layer1, body1_layer2]
          omega
        · intro pr hpr
          simp only [swapPairs] at hpr
          fin_cases hpr <;> simp only [hitsPair, head1_layer1, head2_layer1, body1_layer1, body2_layer1, right_arm1_layer1, right_arm2_layer1, left_arm1_layer1, left_arm2_layer1, right_leg1_layer1, right_leg2_layer1, left_leg1_layer1, left_leg2_layer1, head1_layer2, head2_layer2, body1_layer2, body2_layer2, right_arm1_layer2, right_arm2_layer2, left_arm1_layer2, left_arm2_layer2, right_leg1_layer2, right_leg2_layer2, left_leg1_layer2, left_leg2_layer2] <;> omega
        · simp only [body1_layer1, body1_layer2]
          try congr 1 <;> omega
    · intro h
      simp only [inRect, body2_layer2] at h
      show applyPairs (swap_skin_layer2_to_layer1 img) blank swapPairs x y = img x y
      refine (applyPairs_hit_at (swap_skin_layer2_to_layer1 img) blank
        (swapPairs.take 3) (swapPairs.drop 4) (body2_layer1, body2_layer2) x y ?_ ?_).trans ?_
      · simp only [hitsPair, body2_layer1, body2_layer2]
        omega
      · intro pr hpr
        simp only [swapPairs] at hpr
        fin_cases hpr <;> simp only [hitsPair, head1_layer1, head2_layer1, body1_layer1, body2_layer1, right_arm1_layer1, right_arm2_layer1, left_arm1_layer1, left_arm2_layer1, right_leg1_layer1, right_leg2_layer1, left_leg1_layer1, left_leg2_layer1, head1_layer2, head2_layer2, body1_layer2, body2_layer2, right_arm1_layer2, right_arm2_layer2, left_arm1_layer2, left_arm2_layer2, right_leg1_layer2, right_leg2_layer2, left_leg1_layer2, left_leg2_layer2] <;> omega
      · show applyPairs img blank swapPairs _ _ = img x y
        refine (applyPairs_hit_at img blank
          (swapPairs.take 15) (swapPairs.drop 16) (body2_layer2, body2_layer1) _ _ ?_ ?_).trans ?_
        · simp only [hitsPair, body2_layer1, body2_layer2]
          omega
        · intro pr hpr
          simp only [swapPairs] at hpr
          fin_cases hpr <;> simp only [hitsPair, head1_layer1, head2_layer1, body1_layer1, body2_layer1, right_arm1_layer1, right_arm2_layer1, left_arm1_layer1, left_arm2_layer1, right_leg1_layer1, right_leg2_layer1, left_leg1_layer1, left_leg2_layer1, head1_layer2, head2_layer2, body1_layer2, body2_layer2, right_arm1_layer2, right_arm2_layer2, left_arm1_layer2, left_arm2_layer2, right_leg1_layer2, right_leg2_layer2, left_leg1_layer2, left_leg2_layer2] <;> omega
        · simp only [body2_layer1, body2_layer2]
          try congr 1 <;> omega
    · intro h
      simp only [inRect, right_arm1_layer2] at h
      show applyPairs (swap_skin_layer2_to_layer1 img) blank swapPairs x y = img x y
      refine (applyPairs_hit_at (swap_skin_layer2_to_layer1 img) blank
        (swapPairs.take 4) (swapPairs.drop 5) (right_arm1_layer1, right_arm1_layer2) x y ?_ ?_).trans ?_
      · simp only [hitsPair, right_arm1_layer1, right_arm1_layer2]
        omega
      · intro pr hpr
        simp only [swapPairs] at hpr
        fin_cases hpr <;> simp only [hitsPair, head1_layer1, head2_layer1, body1_layer1, body2_layer1, right_arm1_layer1, right_arm2_layer1, left_arm1_layer1, left_arm2_layer1, right_leg1_layer1, right_leg2_layer1, left_leg1_layer1, left_leg2_layer1, head1_layer2, head2_layer2, body1_layer2, body2_layer2, right_arm1_layer2, right_arm2_layer2, left_arm1_layer2, left_arm2_layer2, right_leg1_layer2, right_leg2_layer2, left_leg1_layer2, left_leg2_layer2] <;> omega
      · show applyPairs img blank swapPairs _ _ = img x y
        refine (applyPairs_hit_at img blank
          (swapPairs.take 16) (swapPairs.drop 17) (right_arm1_layer2, right_arm1_layer1) _ _ ?_ ?_).trans ?_
        · simp only [hitsPair, right_arm1_layer1, right_arm1_layer2]
          omega
        · intro pr hpr
          simp only [swapPairs] at hpr
          fin_cases hpr <;> simp only [hitsPair, head1_layer1, head2_layer1, body1_layer1, body2_layer1, right_arm1_layer1, right_arm2_layer1, left_arm1_layer1, left_arm2_layer1, right_leg1_layer1, right_leg2_layer1, left_leg1_layer1, left_leg2_layer1, head1_layer2, head2_layer2, body1_layer2, body2_layer2, right_arm1_layer2, right_arm2_layer2, left_arm1_layer2, left_arm2_layer2, right_leg1_layer2, right_leg2_layer2, left_leg1_layer2, left_leg2_layer2] <;> omega
        · simp only [right_arm1_layer1, right_arm1_layer2]
          try congr 1 <;> omega
    · intro h
      simp only [inRect, right_arm2_layer2] at h
      show applyPairs (swap_skin_layer2_to_layer1 img) blank swapPairs x y = img x y
      refine (applyPairs_hit_at (swap_skin_layer2_to_layer1 img) blank
        (swapPairs.take 5) (swapPairs.drop 6) (right_arm2_layer1, right_arm2_layer2) x y ?_ ?_).trans ?_
      · simp only [hitsPair, right_arm2_layer1, right_arm2_layer2]
        omega
      · intro pr hpr
        simp only [swapPairs] at hpr
        fin_cases hpr <;> simp only [hitsPair, head1_layer1, head2_layer1, body1_layer1, body2_layer1, right_arm1_layer1, right_arm2_layer1, left_arm1_layer1, left_arm2_layer1, right_leg1_layer1, right_leg2_layer1, left_leg1_layer1, left_leg2_layer1, head1_layer2, head2_layer2, body1_layer2, body2_layer2, right_arm1_layer2, right_arm2_layer2, left_arm1_layer2, left_arm2_layer2, right_leg1_layer2, right_leg2_layer2, left_leg1_layer2, left_leg2_layer2] <;> omega
      · show applyPairs img blank swapPairs _ _ = img x y
        refine (applyPairs_hit_at img blank
          (swapPairs.take 17) (swapPairs.drop 18) (right_arm2_layer2, right_arm2_layer1) _ _ ?_ ?_).trans ?_
        · simp only [hitsPair, right_arm2_layer1, right_arm2_layer2]
          omega
        · intro pr hpr
          simp only [swapPairs] at hpr
          fin_cases hpr <;> simp only [hitsPair, head1_layer1, head2_layer1, body1_layer1, body2_layer1, right_arm1_layer1, right_arm2_layer1, left_arm1_layer1, left_arm2_layer1, right_leg1_layer1, right_leg2_layer1, left_leg1_layer1, left_leg2_layer1, head1_layer2, head2_layer2, body1_layer2, body2_layer2, right_arm1_layer2, right_arm2_layer2, left_arm1_layer2, left_arm2_layer2, right_leg1_layer2, right_leg2_layer2, left_leg1_layer2, left_leg2_layer2] <;> omega
        · simp only [right_arm2_layer1, right_arm2_layer2]
          try congr 1 <;> omega
    · intro h
      simp only [inRect, left_arm1_layer2] at h
      show applyPairs (swap_skin_layer2_to_layer1 img) blank swapPairs x y = img x y
      refine (applyPairs_hit_at (swap_skin_layer2_to_layer1 img) blank
        (swapPairs.take 6) (swapPairs.drop 7) (left_arm1_layer1, left_arm1_layer2) x y ?_ ?_).trans ?_
      · simp only [hitsPair, left_arm1_layer1, left_arm1_layer2]
        omega
      · intro pr hpr
        simp only [swapPairs] at hpr
        fin_cases hpr <;> simp only [hitsPair, head1_layer1, head2_layer1, body1_layer1, body2_layer1, right_arm1_layer1, right_arm2_layer1, left_arm1_layer1, left_arm2_layer1, right_leg1_layer1, right_leg2_layer1, left_leg1_layer1, left_leg2_layer1, head1_layer2, head2_layer2, body1_layer2, body2_layer2, right_arm1_layer2, right_arm2_layer2, left_arm1_layer2, left_arm2_layer2, right_leg1_layer2, right_leg2_layer2, left_leg1_layer2, left_leg2_layer2] <;> omega
      · show applyPairs img blank swapPairs _ _ = img x y
        refine (applyPairs_hit_at img blank
          (swapPairs.take 18) (swapPairs.drop 19) (left_arm1_layer2, left_arm1_layer1) _ _ ?_ ?_).trans ?_
        · simp only [hitsPair, left_arm1_layer1, left_arm1_layer2]
          omega
        · intro pr hpr
          simp only [swapPairs] at hpr
          fin_cases hpr <;> simp only [hitsPair, head1_layer1, head2_layer1, body1_layer1, body2_layer1, right_arm1_layer1, right_arm2_layer1, left_arm1_layer1, left_arm2_layer1, right_leg1_layer1, right_leg2_layer1, left_leg1_layer1, left_leg2_layer1, head1_layer2, head2_layer2, body1_layer2, body2_layer2, right_arm1_layer2, right_arm2_layer2, left_arm1_layer2, left_arm2_layer2, right_leg1_layer2, right_leg2_layer2, left_leg1_layer2, left_leg2_layer2] <;> omega
        · simp only [left_arm1_layer1, left_arm1_layer2]
          try congr 1 <;> omega
    · intro h
      simp only [inRect, left_arm2_layer2] at h
      show applyPairs (swap_skin_layer2_to_layer1 img) blank swapPairs x y = img x y
      refine (applyPairs_hit_at (swap_skin_layer2_to_layer1 img) blank
        (swapPairs.take 7) (swapPairs.drop 8) (left_arm2_layer1, left_arm2_layer2) x y ?_ ?_).trans ?_
      · simp only [hitsPair, left_arm2_layer1, left_arm2_layer2]
        omega
      · intro pr hpr
        simp only [swapPairs] at hpr
        fin_cases hpr <;> simp only [hitsPair, head1_layer1, head2_layer1, body1_layer1, body2_layer1, right_arm1_layer1, right_arm2_layer1, left_arm1_layer1, left_arm2_layer1, right_leg1_layer1, right_leg2_layer1, left_leg1_layer1, left_leg2_layer1, head1_layer2, head2_layer2, body1_layer2, body2_layer2, right_arm1_layer2, right_arm2_layer2, left_arm1_layer2, left_arm2_layer2, right_leg1_layer2, right_leg2_layer2, left_leg1_layer2, left_leg2_layer2] <;> omega
      · show applyPairs img blank swapPairs _ _ = img x y
        refine (applyPairs_hit_at img blank
          (swapPairs.take 19) (swapPairs.drop 20) (left_arm2_layer2, left_arm2_layer1) _ _ ?_ ?_).trans ?_
        · simp only [hitsPair, left_arm2_layer1, left_arm2_layer2]
          omega
        · intro pr hpr
          simp only [swapPairs] at hpr
          fin_cases hpr <;> simp only [hitsPair, head1_layer1, head2_layer1, body1_layer1, body2_layer1, right_arm1_layer1, right_arm2_layer1, left_arm1_layer1, left_arm2_layer1, right_leg1_layer1, right_leg2_layer1, left_leg1_layer1, left_leg2_layer1, head1_layer2, head2_layer2, body1_layer2, body2_layer2, right_arm1_layer2, right_arm2_layer2, left_arm1_layer2, left_arm2_layer2, right_leg1_layer2, right_leg2_layer2, left_leg1_layer2, left_leg2_layer2] <;> omega
        · simp only [left_arm2_layer1, left_arm2_layer2]
          try congr 1 <;> omega
    · intro h
      simp only [inRect, right_leg1_layer2] at h
      show applyPairs (swap_skin_layer2_to_layer1 img) blank swapPairs x y = img x y
      refine (applyPairs_hit_at (swap_skin_layer2_to_layer1 img) blank
        (swapPairs.take 8) (swapPairs.drop 9) (right_leg1_layer1, right_leg1_layer2) x y ?_ ?_).trans ?_
      · simp only [hitsPair, right_leg1_layer1, right_leg1_layer2]
        omega
      · intro pr hpr
        simp only [swapPairs] at hpr
        fin_cases hpr <;> simp only [hitsPair, head1_layer1, head2_layer1, body1_layer1, body2_layer1, right_arm1_layer1, right_arm2_layer1, left_arm1_layer1, left_arm2_layer1, right_leg1_layer1, right_leg2_layer1, left_leg1_layer1, left_leg2_layer1, head1_layer2, head2_layer2, body1_layer2, body2_layer2, right_arm1_layer2, right_arm2_layer2, left_arm1_layer2, left_arm2_layer2, right_leg1_layer2, right_leg2_layer2, left_leg1_layer2, left_leg2_layer2] <;> omega
      · show applyPairs img blank swapPairs _ _ = img x y
        refine (applyPairs_hit_at img blank
          (swapPairs.take 20) (swapPairs.drop 21) (right_leg1_layer2, right_leg1_layer1) _ _ ?_ ?_).trans ?_
        · simp only [hitsPair, right_leg1_layer1, right_leg1_layer2]
          omega
        · intro pr hpr
          simp only [swapPairs] at hpr
          fin_cases hpr <;> simp only [hitsPair, head1_layer1, head2_layer1, body1_layer1, body2_layer1, right_arm1_layer1, right_arm2_layer1, left_arm1_layer1, left_arm2_layer1, right_leg1_layer1, right_leg2_layer1, left_leg1_layer1, left_leg2_layer1, head1_layer2, head2_layer2, body1_layer2, body2_layer2, right_arm1_layer2, right_arm2_layer2, left_arm1_layer2, left_arm2_layer2, right_leg1_layer2, right_leg2_layer2, left_leg1_layer2, left_leg2_layer2] <;> omega
        · simp only [right_leg1_layer1, right_leg1_layer2]
          try congr 1 <;> omega
    · intro h
      simp only [inRect, right_leg2_layer2] at h
      show applyPairs (swap_skin_layer2_to_layer1 img) blank swapPairs x y = img x y
      refine (applyPairs_hit_at (swap_skin_layer2_to_layer1 img) blank
        (swapPairs.take 9) (swapPairs.drop 10) (right_leg2_layer1, right_leg2_layer2) x y ?_ ?_).trans ?_
      · simp only [hitsPair, right_leg2_layer1, right_leg2_layer2]
        omega
      · intro pr hpr
        simp only [swapPairs] at hpr
        fin_cases hpr <;> simp only [hitsPair, head1_layer1, head2_layer1, body1_layer1, body2_layer1, right_arm1_layer1, right_arm2_layer1, left_arm1_layer1, left_arm2_layer1, right_leg1_layer1, right_leg2_layer1, left_leg1_layer1, left_leg2_layer1, head1_layer2, head2_layer2, body1_layer2, body2_layer2, right_arm1_layer2, right_arm2_layer2, left_arm1_layer2, left_arm2_layer2, right_leg1_layer2, right_leg2_layer2, left_leg1_layer2, left_leg2_layer2] <;> omega
      · show applyPairs img blank swapPairs _ _ = img x y
        refine (applyPairs_hit_at img blank
          (swapPairs.take 21) (swapPairs.drop 22) (right_leg2_layer2, right_leg2_layer1) _ _ ?_ ?_).trans ?_
        · simp only [hitsPair, right_leg2_layer1, right_leg2_layer2]
          omega
        · intro pr hpr
          simp only [swapPairs] at hpr
          fin_cases hpr <;> simp only [hitsPair, head1_layer1, head2_layer1, body1_layer1, body2_layer1, right_arm1_layer1, right_arm2_layer1, left_arm1_layer1, left_arm2_layer1, right_leg1_layer1, right_leg2_layer1, left_leg1_layer1, left_leg2_layer1, head1_layer2, head2_layer2, body1_layer2, body2_layer2, right_arm1_layer2, right_arm2_layer2, left_arm1_layer2, left_arm2_layer2, right_leg1_layer2, right_leg2_layer2, left_leg1_layer2, left_leg2_layer2] <;> omega
        · simp only [right_leg2_layer1, right_leg2_layer2]
          try congr 1 <;> omega
    · intro h
      simp only [inRect, left_leg1_layer2] at h
      show applyPairs (swap_skin_layer2_to_layer1 img) blank swapPairs x y = img x y
      refine (applyPairs_hit_at (swap_skin_layer2_to_layer1 img) blank
        (swapPairs.take 10) (swapPairs.drop 11) (left_leg1_layer1, left_leg1_layer2) x y ?_ ?_).trans ?_
      · simp only [hitsPair, left_leg1_layer1, left_leg1_layer2]
        omega
      · intro pr hpr
        simp only [swapPairs] at hpr
        fin_cases hpr <;> simp only [hitsPair, head1_layer1, head2_layer1, body1_layer1, body2_layer1, right_arm1_layer1, right_arm2_layer1, left_arm1_layer1, left_arm2_layer1, right_leg1_layer1, right_leg2_layer1, left_leg1_layer1, left_leg2_layer1, head1_layer2, head2_layer2, body1_layer2, body2_layer2, right_arm1_layer2, right_arm2_layer2, left_arm1_layer2, left_arm2_layer2, right_leg1_layer2, right_leg2_layer2, left_leg1_layer2, left_leg2_layer2] <;> omega
      · show applyPairs img blank swapPairs _ _ = img x y
        refine (applyPairs_hit_at img blank
          (swapPairs.take 22) (swapPairs.drop 23) (left_leg1_layer2, left_leg1_layer1) _ _ ?_ ?_).trans ?_
        · simp only [hitsPair, left_leg1_layer1, left_leg1_layer2]
          omega
        · intro pr hpr
          simp only [swapPairs] at hpr
          fin_cases hpr <;> simp only [hitsPair, head1_layer1, head2_layer1, body1_layer1, body2_layer1, right_arm1_layer1, right_arm2_layer1, left_arm1_layer1, left_arm2_layer1, right_leg1_layer1, right_leg2_layer1, left_leg1_layer1, left_leg2_layer1, head1_layer2, head2_layer2, body1_layer2, body2_layer2, right_arm1_layer2, right_arm2_layer2, left_arm1_layer2, left_arm2_layer2, right_leg1_layer2, right_leg2_layer2, left_leg1_layer2, left_leg2_layer2] <;> omega
        · simp only [left_leg1_layer1, left_leg1_layer2]
          try congr 1 <;> omega
    · intro h
      simp only [inRect, left_leg2_layer2] at h
      show applyPairs (swap_skin_layer2_to_layer1 img) blank swapPairs x y = img x y
      refine (applyPairs_hit_at (swap_skin_layer2_to_layer1 img) blank
        (swapPairs.take 11) (swapPairs.drop 12) (left_leg2_layer1, left_leg2_layer2) x y ?_ ?_).trans ?_
      · simp only [hitsPair, left_leg2_layer1, left_leg2_layer2]
        omega
      · intro pr hpr
        simp only [swapPairs] at hpr
        fin_cases hpr <;> simp only [hitsPair, head1_layer1, head2_layer1, body1_layer1, body2_layer1, right_arm1_layer1, right_arm2_layer1, left_arm1_layer1, left_arm2_layer1, right_leg1_layer1, right_leg2_layer1, left_leg1_layer1, left_leg2_layer1, head1_layer2, head2_layer2, body1_layer2, body2_layer2, right_arm1_layer2, right_arm2_layer2, left_arm1_layer2, left_arm2_layer2, right_leg1_layer2, right_leg2_layer2, left_leg1_layer2, left_leg2_layer2] <;> omega
      · show applyPairs img blank swapPairs _ _ = img x y
        refine (applyPairs_hit_at img blank
          (swapPairs.take 23) (swapPairs.drop 24) (left_leg2_layer2, left_leg2_layer1) _ _ ?_ ?_).trans ?_
        · simp only [hitsPair, left_leg2_layer1, left_leg2_layer2]
          omega
        · intro pr hpr
          simp only [swapPairs] at hpr
          fin_cases hpr <;> simp only [hitsPair, head1_layer1, head2_layer1, body1_layer1, body2_layer1, right_arm1_layer1, right_arm2_layer1, left_arm1_layer1, left_arm2_layer1, right_leg1_layer1, right_leg2_layer1, left_leg1_layer1, left_leg2_layer1, head1_layer2, head2_layer2, body1_layer2, body2_layer2, right_arm1_layer2, right_arm2_layer2, left_arm1_layer2, left_arm2_layer2, right_leg1_layer2, right_leg2_layer2, left_leg1_layer2, left_leg2_layer2] <;> omega
        · simp only [left_leg2_layer1, left_leg2_layer2]
          try congr 1 <;> omega
  · intro h
    show applyPairs (swap_skin_layer2_to_layer1 img) blank swapPairs x y = transparent
    refine (applyPairs_miss (swap_skin_layer2_to_layer1 img) blank swapPairs x y ?_).trans rfl
    intro pr hpr
    simp only [swapPairs] at hpr
    fin_cases hpr
    · exact fun hh => h head1_layer2 (by decide)
        (by simp only [hitsPair, inRect, head1_layer1, head1_layer2] at hh ⊢; omega)
    · exact fun hh => h head2_layer2 (by decide)
        (by simp only [hitsPair, inRect, head2_layer1, head2_layer2] at hh ⊢; omega)
    · exact fun hh => h body1_layer2 (by decide)
        (by simp only [hitsPair, inRect, body1_layer1, body1_layer2] at hh ⊢; omega)
    · exact fun hh => h body2_layer2 (by decide)
        (by simp only [hitsPair, inRect, body2_layer1, body2_layer2] at hh ⊢; omega)
    · exact fun hh => h right_arm1_layer2 (by decide)
        (by simp only [hitsPair, inRect, right_arm1_layer1, right_arm1_layer2] at hh ⊢; omega)
    · exact fun hh => h right_arm2_layer2 (by decide)
        (by simp only [hitsPair, inRect, right_arm2_layer1, right_arm2_layer2] at hh ⊢; omega)
    · exact fun hh => h left_arm1_layer2 (by decide)
        (by simp only [hitsPair, inRect, left_arm1_layer1, left_arm1_layer2] at hh ⊢; omega)
    · exact fun hh => h left_arm2_layer2 (by decide)
        (by simp only [hitsPair, inRect, left_arm2_layer1, left_arm2_layer2] at hh ⊢; omega)
    · exact fun hh => h right_leg1_layer2 (by decide)
        (by simp only [hitsPair, inRect, right_leg1_layer1, right_leg1_layer2] at hh ⊢; omega)
    · exact fun hh => h right_leg2_layer2 (by decide)
        (by simp only [hitsPair, inRect, right_leg2_layer1, right_leg2_layer2] at hh ⊢; omega)
    · exact fun hh => h left_leg1_layer2 (by decide)
        (by simp only [hitsPair, inRect, left_leg1_layer1, left_leg1_layer2] at hh ⊢; omega)
    · exact fun hh => h left_leg2_layer2 (by decide)
        (by simp only [hitsPair, inRect, left_leg2_layer1, left_leg2_layer2] at hh ⊢; omega)
    · exact fun hh => h head1_layer1 (by decide)
        (by simp only [hitsPair, inRect, head1_layer2, head1_layer1] at hh ⊢; omega)
    · exact fun hh => h head2_layer1 (by decide)
        (by simp only [hitsPair, inRect, head2_layer2, head2_layer1] at hh ⊢; omega)
    · exact fun hh => h body1_layer1 (by decide)
        (by simp only [hitsPair, inRect, body1_layer2, body1_layer1] at hh ⊢; omega)
    · exact fun hh => h body2_layer1 (by decide)
        (by simp only [hitsPair, inRect, body2_layer2, body2_layer1] at hh ⊢; omega)
    · exact fun hh => h right_arm1_layer1 (by decide)
        (by simp only [hitsPair, inRect, right_arm1_layer2, right_arm1_layer1] at hh ⊢; omega)
    · exact fun hh => h right_arm2_layer1 (by decide)
        (by simp only [hitsPair, inRect, right_arm2_layer2, right_arm2_layer1] at hh ⊢; omega)
    · exact fun hh => h left_arm1_layer1 (by decide)
        (by simp only [hitsPair, inRect, left_arm1_layer2, left_arm1_layer1] at hh ⊢; omega)
    · exact fun hh => h left_arm2_layer1 (by decide)
        (by simp only [hitsPair, inRect, left_arm2_layer2, left_arm2_layer1] at hh ⊢; omega)
    · exact fun hh => h right_leg1_layer1 (by decide)
        (by simp only [hitsPair, inRect, right_leg1_layer2, right_leg1_layer1] at hh ⊢; omega)
    · exact fun hh => h right_leg2_layer1 (by decide)
        (by simp only [hitsPair, inRect, right_leg2_layer2, right_leg2_layer1] at hh ⊢; omega)
    · exact fun hh => h left_leg1_layer1 (by decide)
        (by simp only [hitsPair, inRect, left_leg1_layer2, left_leg1_layer1] at hh ⊢; omega)
    · exact fun hh => h left_leg2_layer1 (by decide)
        (by simp only [hitsPair, inRect, left_leg2_layer2, left_leg2_layer1] at hh ⊢; omega)

set_option maxHeartbeats 4000000 in
/-- C7: for every 64x64 input image, removeLayer(img, 1) followed by
removeLayer(result, 2) yields a fully transparent 64x64 canvas (every
pixel is the transparent pixel, so every pixel has alpha 0). -/
theorem remove_layer_one_then_two_blank (img : Image) (x y : Nat) :
    ∃ r1 r2, remove_layer img 1 = some r1 ∧ remove_layer r1 2 = some r2 ∧
      r2 x y = transparent := by
  refine ⟨_, _, rfl, rfl, ?_⟩
  by_cases hc0 : inRect head1_layer1 x y
  · simp only [inRect, head1_layer1] at hc0
    refine (applyPairs_hit_at (applyPairs img blank (layer2Parts.map fun c => (c, c))) blank
      ((layer1Parts.map fun c => (c, c)).take 0) ((layer1Parts.map fun c => (c, c)).drop 1)
      (head1_layer1, head1_layer1) x y ?_ ?_).trans ?_
    · simp only [hitsPair, head1_layer1]
      omega
    · intro pr hpr
      simp only [layer1Parts, List.map_cons, List.map_nil] at hpr
      fin_cases hpr <;> simp only [hitsPair, head1_layer1, head2_layer1, body1_layer1, body2_layer1, right_arm1_layer1, right_arm2_layer1, left_arm1_layer1, left_arm2_layer1, right_leg1_layer1, right_leg2_layer1, left_leg1_layer1, left_leg2_layer1, head1_layer2, head2_layer2, body1_layer2, body2_layer2, right_arm1_layer2, right_arm2_layer2, left_arm1_layer2, left_arm2_layer2, right_leg1_layer2, right_leg2_layer2, left_leg1_layer2, left_leg2_layer2] <;> omega
    · refine (applyPairs_miss img blank (layer2Parts.map fun c => (c, c)) _ _ ?_).trans rfl
      intro pr hpr
      simp only [layer2Parts, List.map_cons, List.map_nil] at hpr
      fin_cases hpr <;> simp only [hitsPair, head1_layer1, head2_layer1, body1_layer1, body2_layer1, right_arm1_layer1, right_arm2_layer1, left_arm1_layer1, left_arm2_layer1, right_leg1_layer1, right_leg2_layer1, left_leg1_layer1, left_leg2_layer1, head1_layer2, head2_layer2, body1_layer2, body2_layer2, right_arm1_layer2, right_arm2_layer2, left_arm1_layer2, left_arm2_layer2, right_leg1_layer2, right_leg2_layer2, left_leg1_layer2, left_leg2_layer2] <;> omega
  by_cases hc1 : inRect head2_layer1 x y
  · simp only [inRect, head2_layer1] at hc1
    refine (applyPairs_hit_at (applyPairs img blank (layer2Parts.map fun c => (c, c))) blank
      ((layer1Parts.map fun c => (c, c)).take 1) ((layer1Parts.map fun c => (c, c)).drop 2)
      (head2_layer1, head2_layer1) x y ?_ ?_).trans ?_
    · simp only [hitsPair, head2_layer1]
      omega
    · intro pr hpr
      simp only [layer1Parts, List.map_cons, List.map_nil] at hpr
      fin_cases hpr <;> simp only [hitsPair, head1_layer1, head2_layer1, body1_layer1, body2_layer1, right_arm1_layer1, right_arm2_layer1, left_arm1_layer1, left_arm2_layer1, right_leg1_layer1, right_leg2_layer1, left_leg1_layer1, left_leg2_layer1, head1_layer2, head2_layer2, body1_layer2, body2_layer2, right_arm1_layer2, right_arm2_layer2, left_arm1_layer2, left_arm2_layer2, right_leg1_layer2, right_leg2_layer2, left_leg1_layer2, left_leg2_layer2] <;> omega
    · refine (applyPairs_miss img blank (layer2Parts.map fun c => (c, c)) _ _ ?_).trans rfl
      intro pr hpr
      simp only [layer2Parts, List.map_cons, List.map_nil] at hpr
      fin_cases hpr <;> simp only [hitsPair, head1_layer1, head2_layer1, body1_layer1, body2_layer1, right_arm1_layer1, right_arm2_layer1, left_arm1_layer1, left_arm2_layer1, right_leg1_layer1, right_leg2_layer1, left_leg1_layer1, left_leg2_layer1, head1_layer2, head2_layer2, body1_layer2, body2_layer2, right_arm1_layer2, right_arm2_layer2, left_arm1_layer2, left_arm2_layer2, right_leg1_layer2, right_leg2_layer2, left_leg1_layer2, left_leg2_layer2] <;> omega
  by_cases hc2 : inRect body1_layer1 x y
  · simp only [inRect, body1_layer1] at hc2
    refine (applyPairs_hit_at (applyPairs img blank (layer2Parts.map fun c => (c, c))) blank
      ((layer1Parts.map fun c => (c, c)).take 2) ((layer1Parts.map fun c => (c, c)).drop 3)
      (body1_layer1, body1_layer1) x y ?_ ?_).trans ?_
    · simp only [hitsPair, body1_layer1]
      omega
    · intro pr hpr
      simp only [layer1Parts, List.map_cons, List.map_nil] at hpr
      fin_cases hpr <;> simp only [hitsPair, head1_layer1, head2_layer1, body1_layer1, body2_layer1, right_arm1_layer1, right_arm2_layer1, left_arm1_layer1, left_arm2_layer1, right_leg1_layer1, right_leg2_layer1, left_leg1_layer1, left_leg2_layer1, head1_layer2, head2_layer2, body1_layer2, body2_layer2, right_arm1_layer2, right_arm2_layer2, left_arm1_layer2, left_arm2_layer2, right_leg1_layer2, right_leg2_layer2, left_leg1_layer2, left_leg2_layer2] <;> omega
    · refine (applyPairs_miss img blank (layer2Parts.map fun c => (c, c)) _ _ ?_).trans rfl
      intro pr hpr
      simp only [layer2Parts, List.map_cons, List.map_nil] at hpr
      fin_cases hpr <;> simp only [hitsPair, head1_layer1, head2_layer1, body1_layer1, body2_layer1, right_arm1_layer1, right_arm2_layer1, left_arm1_layer1, left_arm2_layer1, right_leg1_layer1, right_leg2_layer1, left_leg1_layer1, left_leg2_layer1, head1_layer2, head2_layer2, body1_layer2, body2_layer2, right_arm1_layer2, right_arm2_layer2, left_arm1_layer2, left_arm2_layer2, right_leg1_layer2, right_leg2_layer2, left_leg1_layer2, left_leg2_layer2] <;> omega
  by_cases hc3 : inRect body2_layer1 x y
  · simp only [inRect, body2_layer1] at hc3
    refine (applyPairs_hit_at (applyPairs img blank (layer2Parts.map fun c => (c, c))) blank
      ((layer1Parts.map fun c => (c, c)).take 3) ((layer1Parts.map fun c => (c, c)).drop 4)
      (body2_layer1, body2_layer1) x y ?_ ?_).trans ?_
    · simp only [hitsPair, body2_layer1]
      omega
    · intro pr hpr
      simp only [layer1Parts, List.map_cons, List.map_nil] at hpr
      fin_cases hpr <;> simp only [hitsPair, head1_layer1, head2_layer1, body1_layer1, body2_layer1, right_arm1_layer1, right_arm2_layer1, left_arm1_layer1, left_arm2_layer1, right_leg1_layer1, right_leg2_layer1, left_leg1_layer1, left_leg2_layer1, head1_layer2, head2_layer2, body1_layer2, body2_layer2, right_arm1_layer2, right_arm2_layer2, left_arm1_layer2, left_arm2_layer2, right_leg1_layer2, right_leg2_layer2, left_leg1_layer2, left_leg2_layer2] <;> omega
    · refine (applyPairs_miss img blank (layer2Parts.map fun c => (c, c)) _ _ ?_).trans rfl
      intro pr hpr
      simp only [layer2Parts, List.map_cons, List.map_nil] at hpr
      fin_cases hpr <;> simp only [hitsPair, head1_layer1, head2_layer1, body1_layer1, body2_layer1, right_arm1_layer1, right_arm2_layer1, left_arm1_layer1, left_arm2_layer1, right_leg1_layer1, right_leg2_layer1, left_leg1_layer1, left_leg2_layer1, head1_layer2, head2_layer2, body1_layer2, body2_layer2, right_arm1_layer2, right_arm2_layer2, left_arm1_layer2, left_arm2_layer2, right_leg1_layer2, right_leg2_layer2, left_leg1_layer2, left_leg2_layer2] <;> omega
  by_cases hc4 : inRect right_arm1_layer1 x y
  · simp only [inRect, right_arm1_layer1] at hc4
    refine (applyPairs_hit_at (applyPairs img blank (layer2Parts.map fun c => (c, c))) blank
      ((layer1Parts.map fun c => (c, c)).take 4) ((layer1Parts.map fun c => (c, c)).drop 5)
      (right_arm1_layer1, right_arm1_layer1) x y ?_ ?_).trans ?_
    · simp only [hitsPair, right_arm1_layer1]
      omega
    · intro pr hpr
      simp only [layer1Parts, List.map_cons, List.map_nil] at hpr
      fin_cases hpr <;> simp only [hitsPair, head1_layer1, head2_layer1, body1_layer1, body2_layer1, right_arm1_layer1, right_arm2_layer1, left_arm1_layer1, left_arm2_layer1, right_leg1_layer1, right_leg2_layer1, left_leg1_layer1, left_leg2_layer1, head1_layer2, head2_layer2, body1_layer2, body2_layer2, right_arm1_layer2, right_arm2_layer2, left_arm1_layer2, left_arm2_layer2, right_leg1_layer2, right_leg2_layer2, left_leg1_layer2, left_leg2_layer2] <;> omega
    · refine (applyPairs_miss img blank (layer2Parts.map fun c => (c, c)) _ _ ?_).trans rfl
      intro pr hpr
      simp only [layer2Parts, List.map_cons, List.map_nil] at hpr
      fin_cases hpr <;> simp only [hitsPair, head1_layer1, head2_layer1, body1_layer1, body2_layer1, right_arm1_layer1, right_arm2_layer1, left_arm1_layer1, left_arm2_layer1, right_leg1_layer1, right_leg2_layer1, left_leg1_layer1, left_leg2_layer1, head1_layer2, head2_layer2, body1_layer2, body2_layer2, right_arm1_layer2, right_arm2_layer2, left_arm1_layer2, left_arm2_layer2, right_leg1_layer2, right_leg2_layer2, left_leg1_layer2, left_leg2_layer2] <;> omega
  by_cases hc5 : inRect right_arm2_layer1 x y
  · simp only [inRect, right_arm2_layer1] at hc5
    refine (applyPairs_hit_at (applyPairs img blank (layer2Parts.map fun c => (c, c))) blank
      ((layer1Parts.map fun c => (c, c)).take 5) ((layer1Parts.map fun c => (c, c)).drop 6)
      (right_arm2_layer1, right_arm2_layer1) x y ?_ ?_).trans ?_
    · simp only [hitsPair, right_arm2_layer1]
      omega
    · intro pr hpr
      simp only [layer1Parts, List.map_cons, List.map_nil] at hpr
      fin_cases hpr <;> simp only [hitsPair, head1_layer1, head2_layer1, body1_layer1, body2_layer1, right_arm1_layer1, right_arm2_layer1, left_arm1_layer1, left_arm2_layer1, right_leg1_layer1, right_leg2_layer1, left_leg1_layer1, left_leg2_layer1, head1_layer2, head2_layer2, body1_layer2, body2_layer2, right_arm1_layer2, right_arm2_layer2, left_arm1_layer2, left_arm2_layer2, right_leg1_layer2, right_leg2_layer2, left_leg1_layer2, left_leg2_layer2] <;> omega
    · refine (applyPairs_miss img blank (layer2Parts.map fun c => (c, c)) _ _ ?_).trans rfl
      intro pr hpr
      simp only [layer2Parts, List.map_cons, List.map_nil] at hpr
      fin_cases hpr <;> simp only [hitsPair, head1_layer1, head2_layer1, body1_layer1, body2_layer1, right_arm1_layer1, right_arm2_layer1, left_arm1_layer1, left_arm2_layer1, right_leg1_layer1, right_leg2_layer1, left_leg1_layer1, left_leg2_layer1, head1_layer2, head2_layer2, body1_layer2, body2_layer2, right_arm1_layer2, right_arm2_layer2, left_arm1_layer2, left_arm2_layer2, right_leg1_layer2, right_leg2_layer2, left_leg1_layer2, left_leg2_layer2] <;> omega
  by_cases hc6 : inRect left_arm1_layer1 x y
  · simp only [inRect, left_arm1_layer1] at hc6
    refine (applyPairs_hit_at (applyPairs img blank (layer2Parts.map fun c => (c, c))) blank
      ((layer1Parts.map fun c => (c, c)).take 6) ((layer1Parts.map fun c => (c, c)).drop 7)
      (left_arm1_layer1, left_arm1_layer1) x y ?_ ?_).trans ?_
    · simp only [hitsPair, left_arm1_layer1]
      omega
    · intro pr hpr
      simp only [layer1Parts, List.map_cons, List.map_nil] at hpr
      fin_cases hpr <;> simp only [hitsPair, head1_layer1, head2_layer1, body1_layer1, body2_layer1, right_arm1_layer1, right_arm2_layer1, left_arm1_layer1, left_arm2_layer1, right_leg1_layer1, right_leg2_layer1, left_leg1_layer1, left_leg2_layer1, head1_layer2, head2_layer2, body1_layer2, body2_layer2, right_arm1_layer2, right_arm2_layer2, left_arm1_layer2, left_arm2_layer2, right_leg1_layer2, right_leg2_layer2, left_leg1_layer2, left_leg2_layer2] <;> omega
    · refine (applyPairs_miss img blank (layer2Parts.map fun c => (c, c)) _ _ ?_).trans rfl
      intro pr hpr
      simp only [layer2Parts, List.map_cons, List.map_nil] at hpr
      fin_cases hpr <;> simp only [hitsPair, head1_layer1, head2_layer1, body1_layer1, body2_layer1, right_arm1_layer1, right_arm2_layer1, left_arm1_layer1, left_arm2_layer1, right_leg1_layer1, right_leg2_layer1, left_leg1_layer1, left_leg2_layer1, head1_layer2, head2_layer2, body1_layer2, body2_layer2, right_arm1_layer2, right_arm2_layer2, left_arm1_layer2, left_arm2_layer2, right_leg1_layer2, right_leg2_layer2, left_leg1_layer2, left_leg2_layer2] <;> omega
  by_cases hc7 : inRect left_arm2_layer1 x y
  · simp only [inRect, left_arm2_layer1] at hc7
    refine (applyPairs_hit_at (applyPairs img blank (layer2Parts.map fun c => (c, c))) blank
      ((layer1Parts.map fun c => (c, c)).take 7) ((layer1Parts.map fun c => (c, c)).drop 8)
      (left_arm2_layer1, left_arm2_layer1) x y ?_ ?_).trans ?_
    · simp only [hitsPair, left_arm2_layer1]
      omega
    · intro pr hpr
      simp only [layer1Parts, List.map_cons, List.map_nil] at hpr
      fin_cases hpr <;> simp only [hitsPair, head1_layer1, head2_layer1, body1_layer1, body2_layer1, right_arm1_layer1, right_arm2_layer1, left_arm1_layer1, left_arm2_layer1, right_leg1_layer1, right_leg2_layer1, left_leg1_layer1, left_leg2_layer1, head1_layer2, head2_layer2, body1_layer2, body2_layer2, right_arm1_layer2, right_arm2_layer2, left_arm1_layer2, left_arm2_layer2, right_leg1_layer2, right_leg2_layer2, left_leg1_layer2, left_leg2_layer2] <;> omega
    · refine (applyPairs_miss img blank (layer2Parts.map fun c => (c, c)) _ _ ?_).trans rfl
      intro pr hpr
      simp only [layer2Parts, List.map_cons, List.map_nil] at hpr
      fin_cases hpr <;> simp only [hitsPair, head1_layer1, head2_layer1, body1_layer1, body2_layer1, right_arm1_layer1, right_arm2_layer1, left_arm1_layer1, left_arm2_layer1, right_leg1_layer1, right_leg2_layer1, left_leg1_layer1, left_leg2_layer1, head1_layer2, head2_layer2, body1_layer2, body2_layer2, right_arm1_layer2, right_arm2_layer2, left_arm1_layer2, left_arm2_layer2, right_leg1_layer2, right_leg2_layer2, left_leg1_layer2, left_leg2_layer2] <;> omega
  by_cases hc8 : inRect right_leg1_layer1 x y
  · simp only [inRect, right_leg1_layer1] at hc8
    refine (applyPairs_hit_at (applyPairs img blank (layer2Parts.map fun c => (c, c))) blank
      ((layer1Parts.map fun c => (c, c)).take 8) ((layer1Parts.map fun c => (c, c)).drop 9)
      (right_leg1_layer1, right_leg1_layer1) x y ?_ ?_).trans ?_
    · simp only [hitsPair, right_leg1_layer1]
      omega
    · intro pr hpr
      simp only [layer1Parts, List.map_cons, List.map_nil] at hpr
      fin_cases hpr <;> simp only [hitsPair, head1_layer1, head2_layer1, body1_layer1, body2_layer1, right_arm1_layer1, right_arm2_layer1, left_arm1_layer1, left_arm2_layer1, right_leg1_layer1, right_leg2_layer1, left_leg1_layer1, left_leg2_layer1, head1_layer2, head2_layer2, body1_layer2, body2_layer2, right_arm1_layer2, right_arm2_layer2, left_arm1_layer2, left_arm2_layer2, right_leg1_layer2, right_leg2_layer2, left_leg1_layer2, left_leg2_layer2] <;> omega
    · refine (applyPairs_miss img blank (layer2Parts.map fun c => (c, c)) _ _ ?_).trans rfl
      intro pr hpr
      simp only [layer2Parts, List.map_cons, List.map_nil] at hpr
      fin_cases hpr <;> simp only [hitsPair, head1_layer1, head2_layer1, body1_layer1, body2_layer1, right_arm1_layer1, right_arm2_layer1, left_arm1_layer1, left_arm2_layer1, right_leg1_layer1, right_leg2_layer1, left_leg1_layer1, left_leg2_layer1, head1_layer2, head2_layer2, body1_layer2, body2_layer2, right_arm1_layer2, right_arm2_layer2, left_arm1_layer2, left_arm2_layer2, right_leg1_layer2, right_leg2_layer2, left_leg1_layer2, left_leg2_layer2] <;> omega
  by_cases hc9 : inRect right_leg2_layer1 x y
  · simp only [inRect, right_leg2_layer1] at hc9
    refine (applyPairs_hit_at (applyPairs img blank (layer2Parts.map fun c => (c, c))) blank
      ((layer1Parts.map fun c => (c, c)).take 9) ((layer1Parts.map fun c => (c, c)).drop 10)
      (right_leg2_layer1, right_leg2_layer1) x y ?_ ?_).trans ?_
    · simp only [hitsPair, right_leg2_layer1]
      omega
    · intro pr hpr
      simp only [layer1Parts, List.map_cons, List.map_nil] at hpr
      fin_cases hpr <;> simp only [hitsPair, head1_layer1, head2_layer1, body1_layer1, body2_layer1, right_arm1_layer1, right_arm2_layer1, left_arm1_layer1, left_arm2_layer1, right_leg1_layer1, right_leg2_layer1, left_leg1_layer1, left_leg2_layer1, head1_layer2, head2_layer2, body1_layer2, body2_layer2, right_arm1_layer2, right_arm2_layer2, left_arm1_layer2, left_arm2_layer2, right_leg1_layer2, right_leg2_layer2, left_leg1_layer2, left_leg2_layer2] <;> omega
    · refine (applyPairs_miss img blank (layer2Parts.map fun c => (c, c)) _ _ ?_).trans rfl
      intro pr hpr
      simp only [layer2Parts, List.map_cons, List.map_nil] at hpr
      fin_cases hpr <;> simp only [hitsPair, head1_layer1, head2_layer1, body1_layer1, body2_layer1, right_arm1_layer1, right_arm2_layer1, left_arm1_layer1, left_arm2_layer1, right_leg1_layer1, right_leg2_layer1, left_leg1_layer1, left_leg2_layer1, head1_layer2, head2_layer2, body1_layer2, body2_layer2, right_arm1_layer2, right_arm2_layer2, left_arm1_layer2, left_arm2_layer2, right_leg1_layer2, right_leg2_layer2, left_leg1_layer2, left_leg2_layer2] <;> omega
  by_cases hc10 : inRect left_leg1_layer1 x y
  · simp only [inRect, left_leg1_layer1] at hc10
    refine (applyPairs_hit_at (applyPairs img blank (layer2Parts.map fun c => (c, c))) blank
      ((layer1Parts.map fun c => (c, c)).take 10) ((layer1Parts.map fun c => (c, c)).drop 11)
      (left_leg1_layer1, left_leg1_layer1) x y ?_ ?_).trans ?_
    · simp only [hitsPair, left_leg1_layer1]
      omega
    · intro pr hpr
      simp only [layer1Parts, List.map_cons, List.map_nil] at hpr
      fin_cases hpr <;> simp only [hitsPair, head1_layer1, head2_layer1, body1_layer1, body2_layer1, right_arm1_layer1, right_arm2_layer1, left_arm1_layer1, left_arm2_layer1, right_leg1_layer1, right_leg2_layer1, left_leg1_layer1, left_leg2_layer1, head1_layer2, head2_layer2, body1_layer2, body2_layer2, right_arm1_layer2, right_arm2_layer2, left_arm1_layer2, left_arm2_layer2, right_leg1_layer2, right_leg2_layer2, left_leg1_layer2, left_leg2_layer2] <;> omega
    · refine (applyPairs_miss img blank (layer2Parts.map fun c => (c, c)) _ _ ?_).trans rfl
      intro pr hpr
      simp only [layer2Parts, List.map_cons, List.map_nil] at hpr
      fin_cases hpr <;> simp only [hitsPair, head1_layer1, head2_layer1, body1_layer1, body2_layer1, right_arm1_layer1, right_arm2_layer1, left_arm1_layer1, left_arm2_layer1, right_leg1_layer1, right_leg2_layer1, left_leg1_layer1, left_leg2_layer1, head1_layer2, head2_layer2, body1_layer2, body2_layer2, right_arm1_layer2, right_arm2_layer2, left_arm1_layer2, left_arm2_layer2, right_leg1_layer2, right_leg2_layer2, left_leg1_layer2, left_leg2_layer2] <;> omega
  by_cases hc11 : inRect left_leg2_layer1 x y
  · simp only [inRect, left_leg2_layer1] at hc11
    refine (applyPairs_hit_at (applyPairs img blank (layer2Parts.map fun c => (c, c))) blank
      ((layer1Parts.map fun c => (c, c)).take 11) ((layer1Parts.map fun c => (c, c)).drop 12)
      (left_leg2_layer1, left_leg2_layer1) x y ?_ ?_).trans ?_
    · simp only [hitsPair, left_leg2_layer1]
      omega
    · intro pr hpr
      simp only [layer1Parts, List.map_cons, List.map_nil] at hpr
      fin_cases hpr <;> simp only [hitsPair, head1_layer1, head2_layer1, body1_layer1, body2_layer1, right_arm1_layer1, right_arm2_layer1, left_arm1_layer1, left_arm2_layer1, right_leg1_layer1, right_leg2_layer1, left_leg1_layer1, left_leg2_layer1, head1_layer2, head2_layer2, body1_layer2, body2_layer2, right_arm1_layer2, right_arm2_layer2, left_arm1_layer2, left_arm2_layer2, right_leg1_layer2, right_leg2_layer2, left_leg1_layer2, left_leg2_layer2] <;> omega
    · refine (applyPairs_miss img blank (layer2Parts.map fun c => (c, c)) _ _ ?_).trans rfl
      intro pr hpr
      simp only [layer2Parts, List.map_cons, List.map_nil] at hpr
      fin_cases hpr <;> simp only [hitsPair, head1_layer1, head2_layer1, body1_layer1, body2_layer1, right_arm1_layer1, right_arm2_layer1, left_arm1_layer1, left_arm2_layer1, right_leg1_layer1, right_leg2_layer1, left_leg1_layer1, left_leg2_layer1, head1_layer2, head2_layer2, body1_layer2, body2_layer2, right_arm1_layer2, right_arm2_layer2, left_arm1_layer2, left_arm2_layer2, right_leg1_layer2, right_leg2_layer2, left_leg1_layer2, left_leg2_layer2] <;> omega
  refine (applyPairs_miss (applyPairs img blank (layer2Parts.map fun c => (c, c))) blank
    (layer1Parts.map fun c => (c, c)) x y ?_).trans rfl
  intro pr hpr
  simp only [layer1Parts, List.map_cons, List.map_nil] at hpr
  fin_cases hpr
  · exact fun hh => hc0 (by simp only [hitsPair, inRect, head1_layer1] at hh ⊢; omega)
  · exact fun hh => hc1 (by simp only [hitsPair, inRect, head2_layer1] at hh ⊢; omega)
  · exact fun hh => hc2 (by simp only [hitsPair, inRect, body1_layer1] at hh ⊢; omega)
  · exact fun hh => hc3 (by simp only [hitsPair, inRect, body2_layer1] at hh ⊢; omega)
  · exact fun hh => hc4 (by simp only [hitsPair, inRect, right_arm1_layer1] at hh ⊢; omega)
  · exact fun hh => hc5 (by simp only [hitsPair, inRect, right_arm2_layer1] at hh ⊢; omega)
  · exact fun hh => hc6 (by simp only [hitsPair, inRect, left_arm1_layer1] at hh ⊢; omega)
  · exact fun hh => hc7 (by simp only [hitsPair, inRect, left_arm2_layer1] at hh ⊢; omega)
  · exact fun hh => hc8 (by simp only [hitsPair, inRect, right_leg1_layer1] at hh ⊢; omega)
  · exact fun hh => hc9 (by simp only [hitsPair, inRect, right_leg2_layer1] at hh ⊢; omega)
  · exact fun hh => hc10 (by simp only [hitsPair, inRect, left_leg1_layer1] at hh ⊢; omega)
  · exact fun hh => hc11 (by simp only [hitsPair, inRect, left_leg2_layer1] at hh ⊢; omega)

set_option maxHeartbeats 1000000 in
/-- C5: for every input image that the arm-width conversion actually
transforms (detected type differs from the target), the output canvas
is transparent at every pixel outside the target table's right_arm and
left_arm rectangles: steve_to_alex writes only inside the slim
(narrow-table) arm rectangles and alex_to_steve only inside the regular
(wide-table) arm rectangles. -/
theorem arm_conversion_blank_outside_arms (img : Image) (x y : Nat) :
    (auto_detect_skin_type img = "regular" →
      (∀ c ∈ arm_check_parts.map shrinkR2, ¬ inRect c x y) →
      steve_to_alex img x y = transparent) ∧
    (auto_detect_skin_type img = "slim" →
      (∀ c ∈ arm_check_parts, ¬ inRect c x y) →
      alex_to_steve img x y = transparent) := by
  constructor
  · intro hdet h
    rw [steve_to_alex, if_neg (by rw [hdet]; decide)]
    refine (applyJobs_miss blank (narrowJobs img) x y ?_).trans rfl
    intro j hj
    simp only [narrowJobs] at hj
    fin_cases hj
    · exact fun hh => h (shrinkR2 right_arm1_layer1) (by decide)
        (by simp only [jobHits, inRect, deleteCols, deleteCol, crop, shrinkR2, right_arm1_layer1] at hh ⊢
            omega)
    · exact fun hh => h (shrinkR2 right_arm2_layer1) (by decide)
        (by simp only [jobHits, inRect, deleteCols, deleteCol, crop, shrinkR2, right_arm2_layer1] at hh ⊢
            omega)
    · exact fun hh => h (shrinkR2 left_arm1_layer1) (by decide)
        (by simp only [jobHits, inRect, deleteCols, deleteCol, crop, shrinkR2, left_arm1_layer1] at hh ⊢
            omega)
    · exact fun hh => h (shrinkR2 left_arm2_layer1) (by decide)
        (by simp only [jobHits, inRect, deleteCols, deleteCol, crop, shrinkR2, left_arm2_layer1] at hh ⊢
            omega)
    · exact fun hh => h (shrinkR2 right_arm1_layer2) (by decide)
        (by simp only [jobHits, inRect, deleteCols, deleteCol, crop, shrinkR2, right_arm1_layer2] at hh ⊢
            omega)
    · exact fun hh => h (shrinkR2 right_arm2_layer2) (by decide)
        (by simp only [jobHits, inRect, deleteCols, deleteCol, crop, shrinkR2, right_arm2_layer2] at hh ⊢
            omega)
    · exact fun hh => h (shrinkR2 left_arm1_layer2) (by decide)
        (by simp only [jobHits, inRect, deleteCols, deleteCol, crop, shrinkR2, left_arm1_layer2] at hh ⊢
            omega)
    · exact fun hh => h (shrinkR2 left_arm2_layer2) (by decide)
        (by simp only [jobHits, inRect, deleteCols, deleteCol, crop, shrinkR2, left_arm2_layer2] at hh ⊢
            omega)
  · intro hdet h
    rw [alex_to_steve, if_neg (by rw [hdet]; decide)]
    refine (applyJobs_miss blank (widenJobs img) x y ?_).trans rfl
    intro j hj
    simp only [widenJobs] at hj
    fin_cases hj
    · exact fun hh => h right_arm1_layer1 (by decide)
        (by simp only [jobHits, inRect, widenPart, dupCol, crop, shrinkR2, right_arm1_layer1] at hh ⊢
            omega)
    · exact fun hh => h right_arm2_layer1 (by decide)
        (by simp only [jobHits, inRect, widenPart, dupCol, crop, shrinkR2, right_arm2_layer1] at hh ⊢
            omega)
    · exact fun hh => h left_arm1_layer1 (by decide)
        (by simp only [jobHits, inRect, widenPart, dupCol, crop, shrinkR2, left_arm1_layer1] at hh ⊢
            omega)
    · exact fun hh => h left_arm2_layer1 (by decide)
        (by simp only [jobHits, inRect, widenPart, dupCol, crop, shrinkR2, left_arm2_layer1] at hh ⊢
            omega)
    · exact fun hh => h right_arm1_layer2 (by decide)
        (by simp only [jobHits, inRect, widenPart, dupCol, crop, shrinkR2, right_arm1_layer2] at hh ⊢
            omega)
    · exact fun hh => h right_arm2_layer2 (by decide)
        (by simp only [jobHits, inRect, widenPart, dupCol, crop, shrinkR2, right_arm2_layer2] at hh ⊢
            omega)
    · exact fun hh => h left_arm1_layer2 (by decide)
        (by simp only [jobHits, inRect, widenPart, dupCol, crop, shrinkR2, left_arm1_layer2] at hh ⊢
            omega)
    · exact fun hh => h left_arm2_layer2 (by decide)
        (by simp only [jobHits, inRect, widenPart, dupCol, crop, shrinkR2, left_arm2_layer2] at hh ⊢
            omega)

theorem armEdgeHasPixel_iff (img : Image) (c : Rect) (hgeom : c.l + 2 ≤ c.r) :
    armEdgeHasPixel img c = true ↔
      ∃ px py, inRect c px py ∧ c.r - 2 ≤ px ∧ 0 < alpha (img px py) := by
  unfold armEdgeHasPixel
  simp only [crop, List.any_eq_true, List.mem_range, List.mem_cons, List.not_mem_nil,
    or_false, decide_eq_true_eq]
  constructor
  · rintro ⟨yy, hyy, xx, hxx, hpx⟩
    refine ⟨c.l + xx, c.t + yy, ⟨by omega, by omega, by omega, by omega⟩, by omega, hpx⟩
  · rintro ⟨px, py, ⟨h1, h2, h3, h4⟩, h5, hal⟩
    refine ⟨py - c.t, by omega, px - c.l, ?_, ?_⟩
    · by_cases hx2 : px = c.r - 2
      · left
        omega
      · right
        omega
    · have hpx : c.l + (px - c.l) = px := by omega
      have hpy : c.t + (py - c.t) = py := by omega
      rw [hpx, hpy]
      exact hal

theorem detect_eq_regular_iff (img : Image) :
    auto_detect_skin_type img = "regular" ↔
      ∃ c ∈ arm_check_parts, armEdgeHasPixel img c = true := by
  constructor
  · intro h
    by_cases hb : arm_check_parts.any (armEdgeHasPixel img) = true
    · exact List.any_eq_true.mp hb
    · rw [auto_detect_skin_type, if_neg hb] at h
      exact absurd h (by decide)
  · rintro ⟨c, hc, harm⟩
    rw [auto_detect_skin_type, if_pos (List.any_eq_true.mpr ⟨c, hc, harm⟩)]

theorem detect_eq_slim_of_not_regular (img : Image)
    (h : auto_detect_skin_type img ≠ "regular") :
    auto_detect_skin_type img = "slim" := by
  by_cases hb : arm_check_parts.any (armEdgeHasPixel img) = true
  · exact absurd (by rw [auto_detect_skin_type, if_pos hb]) h
  · rw [auto_detect_skin_type, if_neg hb]

set_option maxHeartbeats 1000000 in
/-- C4: for every 64x64 RGBA image, arm-width auto-detection classifies
it as Wide (type string "regular") iff some pixel in the rightmost 2
columns of some wide-table arm rectangle (right_arm or left_arm, either
layer, either Named Part) has alpha > 0, and classifies it as Narrow
(type string "slim") otherwise; in particular a fully transparent image
is classified Narrow. -/
theorem autodetect_wide_iff_edge_alpha (img : Image) :
    (auto_detect_skin_type img = "regular" ↔
      ∃ c ∈ arm_check_parts, ∃ px py,
        inRect c px py ∧ c.r - 2 ≤ px ∧ 0 < alpha (img px py)) ∧
    ((¬ ∃ c ∈ arm_check_parts, ∃ px py,
        inRect c px py ∧ c.r - 2 ≤ px ∧ 0 < alpha (img px py)) →
      auto_detect_skin_type img = "slim") ∧
    ((∀ px py, px < 64 → py < 64 → alpha (img px py) = 0) →
      auto_detect_skin_type img = "slim") := by
  have hgeom : ∀ c ∈ arm_check_parts, c.l + 2 ≤ c.r := by decide
  have hiff : auto_detect_skin_type img = "regular" ↔
      ∃ c ∈ arm_check_parts, ∃ px py,
        inRect c px py ∧ c.r - 2 ≤ px ∧ 0 < alpha (img px py) := by
    rw [detect_eq_regular_iff]
    constructor
    · rintro ⟨c, hc, harm⟩
      exact ⟨c, hc, (armEdgeHasPixel_iff img c (hgeom c hc)).mp harm⟩
    · rintro ⟨c, hc, hex⟩
      exact ⟨c, hc, (armEdgeHasPixel_iff img c (hgeom c hc)).mpr hex⟩
  refine ⟨hiff, ?_, ?_⟩
  · intro hnex
    exact detect_eq_slim_of_not_regular img (fun hreg => hnex (hiff.mp hreg))
  · intro halpha
    refine detect_eq_slim_of_not_regular img (fun hreg => ?_)
    obtain ⟨c, hc, px, py, hin, hcol, hal⟩ := hiff.mp hreg
    have hb : px < 64 ∧ py < 64 := by
      fin_cases hc <;> simp only [inRect, right_arm1_layer1, right_arm2_layer1,
        right_arm1_layer2, right_arm2_layer2, left_arm1_layer1, left_arm2_layer1,
        left_arm1_layer2, left_arm2_layer2] at hin <;> omega
    rw [halpha px py hb.1 hb.2] at hal
    exact absurd hal (by decide)

/-- C8: for every 64x64 input image, convertSkinType called with
targetType omitted (and no stored skin type on the instance, the
constructor default) auto-detects the image's current arm-width type
and returns the result of the directional conversion toward the
opposite of the detected type: steve_to_alex for a detected regular
(wide) skin, alex_to_steve for a detected slim (narrow) skin. -/
theorem convert_skin_type_default_dispatch (img : Image) :
    convert_skin_type none img none =
      some (if auto_detect_skin_type img = "regular"
            then steve_to_alex img else alex_to_steve img) := by
  by_cases hb : arm_check_parts.any (armEdgeHasPixel img) = true
  · have hdet : auto_detect_skin_type img = "regular" := by
      rw [auto_detect_skin_type, if_pos hb]
    rw [hdet]
    unfold convert_skin_type
    rw [hdet]
    rfl
  · have hdet : auto_detect_skin_type img = "slim" := by
      rw [auto_detect_skin_type, if_neg hb]
    rw [hdet]
    unfold convert_skin_type
    rw [hdet]
    rfl

/-- C9: at the file-processor level, expand fails with a dimension
mismatch and produces no output when the input is neither 64x32 nor
64x64, and a 64x64 input is accepted as a no-op passthrough (success is
reported and no transformation is performed). -/
theorem processor_expand_dimension_check (wd ht : Nat) (img : Image) :
    (¬(wd = 64 ∧ ht = 32) → ¬(wd = 64 ∧ ht = 64) →
      processor_convert_skin_64x32_to_64x64 wd ht img =
        ProcessOutcome.dimensionMismatch) ∧
    (wd = 64 → ht = 64 →
      processor_convert_skin_64x32_to_64x64 wd ht img =
        ProcessOutcome.alreadyConverted) := by
  constructor
  · intro h32 h64
    rw [processor_convert_skin_64x32_to_64x64, if_neg h64, if_pos h32]
  · intro hw hh
    rw [processor_convert_skin_64x32_to_64x64, if_pos ⟨hw, hh⟩]

/-- Witness for C9 at the concrete sizes 50x50 (mismatch) and 64x64
(no-op passthrough). -/
theorem processor_expand_dimension_check_witness :
    processor_convert_skin_64x32_to_64x64 50 50 blank =
      ProcessOutcome.dimensionMismatch ∧
    processor_convert_skin_64x32_to_64x64 64 64 blank =
      ProcessOutcome.alreadyConverted :=
  ⟨(processor_expand_dimension_check 50 50 blank).1 (by decide) (by decide),
   (processor_expand_dimension_check 64 64 blank).2 rfl rfl⟩

/-- C10: for every 64x64 input image and every layerIndex outside
{1, 2}, removeLayer fails (prints an invalid-index error) and produces
no image. -/
theorem remove_layer_invalid_index_none (img : Image) (k : Int)
    (h1 : k ≠ 1) (h2 : k ≠ 2) : remove_layer img k = none := by
  rw [remove_layer, if_neg h1, if_neg h2]

/-- Witness for C10 at the concrete index 3. -/
theorem remove_layer_invalid_index_none_witness :
    remove_layer blank 3 = none :=
  remove_layer_invalid_index_none blank 3 (by decide) (by decide)

theorem armEdgeHasPixel_of_lastcol (img : Image) (c : Rect) (yy : Nat)
    (hyy : yy < c.b - c.t)
    (hal : 0 < alpha (img (c.l + (c.r - c.l - 1)) (c.t + yy))) :
    armEdgeHasPixel img c = true := by
  unfold armEdgeHasPixel
  simp only [crop, List.any_eq_true, List.mem_range, List.mem_cons, List.not_mem_nil,
    or_false, decide_eq_true_eq]
  exact ⟨yy, hyy, c.r - c.l - 1, Or.inr rfl, hal⟩

theorem narrow_detect_slim (img : Image) :
    auto_detect_skin_type (applyJobs blank (narrowJobs img)) = "slim" := rfl


set_option maxHeartbeats 2000000 in
theorem roundtrip_lastcol_right_arm1_layer1 (img : Image) (yy : Nat) (hyy : yy < 4) :
    applyJobs blank (widenJobs (applyJobs blank (narrowJobs img))) 51 (16 + yy) =
      img 51 (16 + yy) := by
  refine (applyJobs_hit_at blank
      ((widenJobs (applyJobs blank (narrowJobs img))).take 0)
      ((widenJobs (applyJobs blank (narrowJobs img))).drop 1)
      (widenPart (crop (applyJobs blank (narrowJobs img)) (shrinkR2 right_arm1_layer1)) 4 1, right_arm1_layer1)
      51 (16 + yy) ?_ ?_).trans ?_
  · simp only [jobHits, widenPart, dupCol, crop, shrinkR2, right_arm1_layer1]
    omega
  · intro q hq
    simp only [widenJobs] at hq
    fin_cases hq <;>
      simp only [jobHits, widenPart, dupCol, crop, shrinkR2, right_arm1_layer1, right_arm2_layer1, left_arm1_layer1, left_arm2_layer1, right_arm1_layer2, right_arm2_layer2, left_arm1_layer2, left_arm2_layer2] <;> omega
  · have hrow : 16 + yy - 16 = yy := by omega
    show applyJobs blank (narrowJobs img) 49 (16 + (16 + yy - 16)) = img 51 (16 + yy)
    rw [hrow]
    refine (applyJobs_hit_at blank ((narrowJobs img).take 0) ((narrowJobs img).drop 1)
      (deleteCols (crop img right_arm1_layer1) 2 6, shrinkR2 right_arm1_layer1) 49 (16 + yy) ?_ ?_).trans ?_
    · simp only [jobHits, deleteCols, deleteCol, crop, shrinkR2, right_arm1_layer1]
      omega
    · intro q hq
      simp only [narrowJobs] at hq
      fin_cases hq <;>
        simp only [jobHits, deleteCols, deleteCol, crop, shrinkR2, right_arm1_layer1, right_arm2_layer1, left_arm1_layer1, left_arm2_layer1, right_arm1_layer2, right_arm2_layer2, left_arm1_layer2, left_arm2_layer2] <;> omega
    · show img 51 (16 + (16 + yy - 16)) = img 51 (16 + yy)
      rw [hrow]

set_option maxHeartbeats 2000000 in
theorem roundtrip_lastcol_right_arm2_layer1 (img : Image) (yy : Nat) (hyy : yy < 12) :
    applyJobs blank (widenJobs (applyJobs blank (narrowJobs img))) 55 (20 + yy) =
      img 55 (20 + yy) := by
  refine (applyJobs_hit_at blank
      ((widenJobs (applyJobs blank (narrowJobs img))).take 1)
      ((widenJobs (applyJobs blank (narrowJobs img))).drop 2)
      (widenPart (crop (applyJobs blank (narrowJobs img)) (shrinkR2 right_arm2_layer1)) 12 5, right_arm2_layer1)
      55 (20 + yy) ?_ ?_).trans ?_
  · simp only [jobHits, widenPart, dupCol, crop, shrinkR2, right_arm2_layer1]
    omega
  · intro q hq
    simp only [widenJobs] at hq
    fin_cases hq <;>
      simp only [jobHits, widenPart, dupCol, crop, shrinkR2, right_arm1_layer1, right_arm2_layer1, left_arm1_layer1, left_arm2_layer1, right_arm1_layer2, right_arm2_layer2, left_arm1_layer2, left_arm2_layer2] <;> omega
  · have hrow : 20 + yy - 20 = yy := by omega
    show applyJobs blank (narrowJobs img) 53 (20 + (20 + yy - 20)) = img 55 (20 + yy)
    rw [hrow]
    refine (applyJobs_hit_at blank ((narrowJobs img).take 1) ((narrowJobs img).drop 2)
      (deleteCols (crop img right_arm2_layer1) 6 13, shrinkR2 right_arm2_layer1) 53 (20 + yy) ?_ ?_).trans ?_
    · simp only [jobHits, deleteCols, deleteCol, crop, shrinkR2, right_arm2_layer1]
      omega
    · intro q hq
      simp only [narrowJobs] at hq
      fin_cases hq <;>
        simp only [jobHits, deleteCols, deleteCol, crop, shrinkR2, right_arm1_layer1, right_arm2_layer1, left_arm1_layer1, left_arm2_layer1, right_arm1_layer2, right_arm2_layer2, left_arm1_layer2, left_arm2_layer2] <;> omega
    · show img 55 (20 + (20 + yy - 20)) = img 55 (20 + yy)
      rw [hrow]

set_option maxHeartbeats 2000000 in
theorem roundtrip_lastcol_left_arm1_layer1 (img : Image) (yy : Nat) (hyy : yy < 4) :
    applyJobs blank (widenJobs (applyJobs blank (narrowJobs img))) 43 (48 + yy) =
      img 43 (48 + yy) := by
  refine (applyJobs_hit_at blank
      ((widenJobs (applyJobs blank (narrowJobs img))).take 2)
      ((widenJobs (applyJobs blank (narrowJobs img))).drop 3)
      (widenPart (crop (applyJobs blank (narrowJobs img)) (shrinkR2 left_arm1_layer1)) 4 1, left_arm1_layer1)
      43 (48 + yy) ?_ ?_).trans ?_
  · simp only [jobHits, widenPart, dupCol, crop, shrinkR2, left_arm1_layer1]
    omega
  · intro q hq
    simp only [widenJobs] at hq
    fin_cases hq <;>
      simp only [jobHits, widenPart, dupCol, crop, shrinkR2, right_arm1_layer1, right_arm2_layer1, left_arm1_layer1, left_arm2_layer1, right_arm1_layer2, right_arm2_layer2, left_arm1_layer2, left_arm2_layer2] <;> omega
  · have hrow : 48 + yy - 48 = yy := by omega
    show applyJobs blank (narrowJobs img) 41 (48 + (48 + yy - 48)) = img 43 (48 + yy)
    rw [hrow]
    refine (applyJobs_hit_at blank ((narrowJobs img).take 2) ((narrowJobs img).drop 3)
      (deleteCols (crop img left_arm1_layer1) 1 5, shrinkR2 left_arm1_layer1) 41 (48 + yy) ?_ ?_).trans ?_
    · simp only [jobHits, deleteCols, deleteCol, crop, shrinkR2, left_arm1_layer1]
      omega
    · intro q hq
      simp only [narrowJobs] at hq
      fin_cases hq <;>
        simp only [jobHits, deleteCols, deleteCol, crop, shrinkR2, right_arm1_layer1, right_arm2_layer1, left_arm1_layer1, left_arm2_layer1, right_arm1_layer2, right_arm2_layer2, left_arm1_layer2, left_arm2_layer2] <;> omega
    · show img 43 (48 + (48 + yy - 48)) = img 43 (48 + yy)
      rw [hrow]

set_option maxHeartbeats 2000000 in
theorem roundtrip_lastcol_left_arm2_layer1 (img : Image) (yy : Nat) (hyy : yy < 12) :
    applyJobs blank (widenJobs (applyJobs blank (narrowJobs img))) 47 (52 + yy) =
      img 47 (52 + yy) := by
  refine (applyJobs_hit_at blank
      ((widenJobs (applyJobs blank (narrowJobs img))).take 3)
      ((widenJobs (applyJobs blank (narrowJobs img))).drop 4)
      (widenPart (crop (applyJobs blank (narrowJobs img)) (shrinkR2 left_arm2_layer1)) 12 5, left_arm2_layer1)
      47 (52 + yy) ?_ ?_).trans ?_
  · simp only [jobHits, widenPart, dupCol, crop, shrinkR2, left_arm2_layer1]
    omega
  · intro q hq
    simp only [widenJobs] at hq
    fin_cases hq <;>
      simp only [jobHits, widenPart, dupCol, crop, shrinkR2, right_arm1_layer1, right_arm2_layer1, left_arm1_layer1, left_arm2_layer1, right_arm1_layer2, right_arm2_layer2, left_arm1_layer2, left_arm2_layer2] <;> omega
  · have hrow : 52 + yy - 52 = yy := by omega
    show applyJobs blank (narrowJobs img) 45 (52 + (52 + yy - 52)) = img 47 (52 + yy)
    rw [hrow]
    refine (applyJobs_hit_at blank ((narrowJobs img).take 3) ((narrowJobs img).drop 4)
      (deleteCols (crop img left_arm2_layer1) 5 14, shrinkR2 left_arm2_layer1) 45 (52 + yy) ?_ ?_).trans ?_
    · simp only [jobHits, deleteCols, deleteCol, crop, shrinkR2, left_arm2_layer1]
      omega
    · intro q hq
      simp only [narrowJobs] at hq
      fin_cases hq <;>
        simp only [jobHits, deleteCols, deleteCol, crop, shrinkR2, right_arm1_layer1, right_arm2_layer1, left_arm1_layer1, left_arm2_layer1, right_arm1_layer2, right_arm2_layer2, left_arm1_layer2, left_arm2_layer2] <;> omega
    · show img 47 (52 + (52 + yy - 52)) = img 47 (52 + yy)
      rw [hrow]

set_option maxHeartbeats 2000000 in
theorem roundtrip_lastcol_right_arm1_layer2 (img : Image) (yy : Nat) (hyy : yy < 4) :
    applyJobs blank (widenJobs (applyJobs blank (narrowJobs img))) 51 (32 + yy) =
      img 51 (32 + yy) := by
  refine (applyJobs_hit_at blank
      ((widenJobs (applyJobs blank (narrowJobs img))).take 4)
      ((widenJobs (applyJobs blank (narrowJobs img))).drop 5)
      (widenPart (crop (applyJobs blank (narrowJobs img)) (shrinkR2 right_arm1_layer2)) 4 1, right_arm1_layer2)
      51 (32 + yy) ?_ ?_).trans ?_
  · simp only [jobHits, widenPart, dupCol, crop, shrinkR2, right_arm1_layer2]
    omega
  · intro q hq
    simp only [widenJobs] at hq
    fin_cases hq <;>
      simp only [jobHits, widenPart, dupCol, crop, shrinkR2, right_arm1_layer1, right_arm2_layer1, left_arm1_layer1, left_arm2_layer1, right_arm1_layer2, right_arm2_layer2, left_arm1_layer2, left_arm2_layer2] <;> omega
  · have hrow : 32 + yy - 32 = yy := by omega
    show applyJobs blank (narrowJobs img) 49 (32 + (32 + yy - 32)) = img 51 (32 + yy)
    rw [hrow]
    refine (applyJobs_hit_at blank ((narrowJobs img).take 4) ((narrowJobs img).drop 5)
      (deleteCols (crop img right_arm1_layer2) 2 6, shrinkR2 right_arm1_layer2) 49 (32 + yy) ?_ ?_).trans ?_
    · simp only [jobHits, deleteCols, deleteCol, crop, shrinkR2, right_arm1_layer2]
      omega
    · intro q hq
      simp only [narrowJobs] at hq
      fin_cases hq <;>
        simp only [jobHits, deleteCols, deleteCol, crop, shrinkR2, right_arm1_layer1, right_arm2_layer1, left_arm1_layer1, left_arm2_layer1, right_arm1_layer2, right_arm2_layer2, left_arm1_layer2, left_arm2_layer2] <;> omega
    · show img 51 (32 + (32 + yy - 32)) = img 51 (32 + yy)
      rw [hrow]

set_option maxHeartbeats 2000000 in
theorem roundtrip_lastcol_right_arm2_layer2 (img : Image) (yy : Nat) (hyy : yy < 12) :
    applyJobs blank (widenJobs (applyJobs blank (narrowJobs img))) 55 (36 + yy) =
      img 55 (36 + yy) := by
  refine (applyJobs_hit_at blank
      ((widenJobs (applyJobs blank (narrowJobs img))).take 5)
      ((widenJobs (applyJobs blank (narrowJobs img))).drop 6)
      (widenPart (crop (applyJobs blank (narrowJobs img)) (shrinkR2 right_arm2_layer2)) 12 5, right_arm2_layer2)
      55 (36 + yy) ?_ ?_).trans ?_
  · simp only [jobHits, widenPart, dupCol, crop, shrinkR2, right_arm2_layer2]
    omega
  · intro q hq
    simp only [widenJobs] at hq
    fin_cases hq <;>
      simp only [jobHits, widenPart, dupCol, crop, shrinkR2, right_arm1_layer1, right_arm2_layer1, left_arm1_layer1, left_arm2_layer1, right_arm1_layer2, right_arm2_layer2, left_arm1_layer2, left_arm2_layer2] <;> omega
  · have hrow : 36 + yy - 36 = yy := by omega
    show applyJobs blank (narrowJobs img) 53 (36 + (36 + yy - 36)) = img 55 (36 + yy)
    rw [hrow]
    refine (applyJobs_hit_at blank ((narrowJobs img).take 5) ((narrowJobs img).drop 6)
      (deleteCols (crop img right_arm2_layer2) 6 13, shrinkR2 right_arm2_layer2) 53 (36 + yy) ?_ ?_).trans ?_
    · simp only [jobHits, deleteCols, deleteCol, crop, shrinkR2, right_arm2_layer2]
      omega
    · intro q hq
      simp only [narrowJobs] at hq
      fin_cases hq <;>
        simp only [jobHits, deleteCols, deleteCol, crop, shrinkR2, right_arm1_layer1, right_arm2_layer1, left_arm1_layer1, left_arm2_layer1, right_arm1_layer2, right_arm2_layer2, left_arm1_layer2, left_arm2_layer2] <;> omega
    · show img 55 (36 + (36 + yy - 36)) = img 55 (36 + yy)
      rw [hrow]

set_option maxHeartbeats 2000000 in
theorem roundtrip_lastcol_left_arm1_layer2 (img : Image) (yy : Nat) (hyy : yy < 4) :
    applyJobs blank (widenJobs (applyJobs blank (narrowJobs img))) 59 (48 + yy) =
      img 59 (48 + yy) := by
  refine (applyJobs_hit_at blank
      ((widenJobs (applyJobs blank (narrowJobs img))).take 6)
      ((widenJobs (applyJobs blank (narrowJobs img))).drop 7)
      (widenPart (crop (applyJobs blank (narrowJobs img)) (shrinkR2 left_arm1_layer2)) 4 1, left_arm1_layer2)
      59 (48 + yy) ?_ ?_).trans ?_
  · simp only [jobHits, widenPart, dupCol, crop, shrinkR2, left_arm1_layer2]
    omega
  · intro q hq
    simp only [widenJobs] at hq
    fin_cases hq <;>
      simp only [jobHits, widenPart, dupCol, crop, shrinkR2, right_arm1_layer1, right_arm2_layer1, left_arm1_layer1, left_arm2_layer1, right_arm1_layer2, right_arm2_layer2, left_arm1_layer2, left_arm2_layer2] <;> omega
  · have hrow : 48 + yy - 48 = yy := by omega
    show applyJobs blank (narrowJobs img) 57 (48 + (48 + yy - 48)) = img 59 (48 + yy)
    rw [hrow]
    refine (applyJobs_hit_at blank ((narrowJobs img).take 6) ((narrowJobs img).drop 7)
      (deleteCols (crop img left_arm1_layer2) 1 5, shrinkR2 left_arm1_layer2) 57 (48 + yy) ?_ ?_).trans ?_
    · simp only [jobHits, deleteCols, deleteCol, crop, shrinkR2, left_arm1_layer2]
      omega
    · intro q hq
      simp only [narrowJobs] at hq
      fin_cases hq <;>
        simp only [jobHits, deleteCols, deleteCol, crop, shrinkR2, right_arm1_layer1, right_arm2_layer1, left_arm1_layer1, left_arm2_layer1, right_arm1_layer2, right_arm2_layer2, left_arm1_layer2, left_arm2_layer2] <;> omega
    · show img 59 (48 + (48 + yy - 48)) = img 59 (48 + yy)
      rw [hrow]

set_option maxHeartbeats 2000000 in
theorem roundtrip_lastcol_left_arm2_layer2 (img : Image) (yy : Nat) (hyy : yy < 12) :
    applyJobs blank (widenJobs (applyJobs blank (narrowJobs img))) 63 (52 + yy) =
      img 63 (52 + yy) := by
  refine (applyJobs_hit_at blank
      ((widenJobs (applyJobs blank (narrowJobs img))).take 7)
      ((widenJobs (applyJobs blank (narrowJobs img))).drop 8)
      (widenPart (crop (applyJobs blank (narrowJobs img)) (shrinkR2 left_arm2_layer2)) 12 5, left_arm2_layer2)
      63 (52 + yy) ?_ ?_).trans ?_
  · simp only [jobHits, widenPart, dupCol, crop, shrinkR2, left_arm2_layer2]
    omega
  · intro q hq
    simp only [widenJobs] at hq
    fin_cases hq <;>
      simp only [jobHits, widenPart, dupCol, crop, shrinkR2, right_arm1_layer1, right_arm2_layer1, left_arm1_layer1, left_arm2_layer1, right_arm1_layer2, right_arm2_layer2, left_arm1_layer2, left_arm2_layer2] <;> omega
  · have hrow : 52 + yy - 52 = yy := by omega
    show applyJobs blank (narrowJobs img) 61 (52 + (52 + yy - 52)) = img 63 (52 + yy)
    rw [hrow]
    refine (applyJobs_hit_at blank ((narrowJobs img).take 7) ((narrowJobs img).drop 8)
      (deleteCols (crop img left_arm2_layer2) 5 14, shrinkR2 left_arm2_layer2) 61 (52 + yy) ?_ ?_).trans ?_
    · simp only [jobHits, deleteCols, deleteCol, crop, shrinkR2, left_arm2_layer2]
      omega
    · intro q hq
      simp only [narrowJobs] at hq
      fin_cases hq <;>
        simp only [jobHits, deleteCols, deleteCol, crop, shrinkR2, right_arm1_layer1, right_arm2_layer1, left_arm1_layer1, left_arm2_layer1, right_arm1_layer2, right_arm2_layer2, left_arm1_layer2, left_arm2_layer2] <;> omega
    · show img 63 (52 + (52 + yy - 52)) = img 63 (52 + yy)
      rw [hrow]

set_option maxHeartbeats 2000000 in
/-- C6 (amended): converting a Wide-classified image Wide-to-Narrow and
then Narrow-to-Wide yields an image classified Wide again, provided the
original image has an opaque pixel in the rightmost column of some
wide-table arm rectangle (such a pixel survives the round trip; an
image whose only wide evidence lies in a column the narrowing deletes
can re-classify as Narrow, see the counterexample). -/
theorem roundtrip_wide_classification_with_lastcol_evidence (img : Image)
    (h : ∃ c ∈ arm_check_parts, ∃ yy, yy < c.b - c.t ∧
          0 < alpha (img (c.r - 1) (c.t + yy))) :
    auto_detect_skin_type img = "regular" ∧
    auto_detect_skin_type (alex_to_steve (steve_to_alex img)) = "regular" := by
  obtain ⟨c, hc, yy, hyy, hal⟩ := h
  have hlast : c.l + (c.r - c.l - 1) = c.r - 1 := by
    fin_cases hc <;> decide
  have hreg : auto_detect_skin_type img = "regular" := by
    refine (detect_eq_regular_iff img).mpr ⟨c, hc, ?_⟩
    refine armEdgeHasPixel_of_lastcol img c yy hyy ?_
    rw [hlast]
    exact hal
  refine ⟨hreg, ?_⟩
  have hsta : steve_to_alex img = applyJobs blank (narrowJobs img) := by
    rw [steve_to_alex, if_neg (by rw [hreg]; decide)]
  have hats : alex_to_steve (steve_to_alex img) =
      applyJobs blank (widenJobs (applyJobs blank (narrowJobs img))) := by
    rw [hsta, alex_to_steve, if_neg (by rw [narrow_detect_slim img]; decide)]
  rw [hats]
  refine (detect_eq_regular_iff _).mpr ⟨c, hc, ?_⟩
  refine armEdgeHasPixel_of_lastcol _ c yy hyy ?_
  rw [hlast]
  fin_cases hc
  · show 0 < alpha (applyJobs blank
      (widenJobs (applyJobs blank (narrowJobs img))) 51 (16 + yy))
    rw [roundtrip_lastcol_right_arm1_layer1 img yy (by simpa using hyy)]
    simpa using hal
  · show 0 < alpha (applyJobs blank
      (widenJobs (applyJobs blank (narrowJobs img))) 55 (20 + yy))
    rw [roundtrip_lastcol_right_arm2_layer1 img yy (by simpa using hyy)]
    simpa using hal
  · show 0 < alpha (applyJobs blank
      (widenJobs (applyJobs blank (narrowJobs img))) 51 (32 + yy))
    rw [roundtrip_lastcol_right_arm1_layer2 img yy (by simpa using hyy)]
    simpa using hal
  · show 0 < alpha (applyJobs blank
      (widenJobs (applyJobs blank (narrowJobs img))) 55 (36 + yy))
    rw [roundtrip_lastcol_right_arm2_layer2 img yy (by simpa using hyy)]
    simpa using hal
  · show 0 < alpha (applyJobs blank
      (widenJobs (applyJobs blank (narrowJobs img))) 43 (48 + yy))
    rw [roundtrip_lastcol_left_arm1_layer1 img yy (by simpa using hyy)]
    simpa using hal
  · show 0 < alpha (applyJobs blank
      (widenJobs (applyJobs blank (narrowJobs img))) 47 (52 + yy))
    rw [roundtrip_lastcol_left_arm2_layer1 img yy (by simpa using hyy)]
    simpa using hal
  · show 0 < alpha (applyJobs blank
      (widenJobs (applyJobs blank (narrowJobs img))) 59 (48 + yy))
    rw [roundtrip_lastcol_left_arm1_layer2 img yy (by simpa using hyy)]
    simpa using hal
  · show 0 < alpha (applyJobs blank
      (widenJobs (applyJobs blank (narrowJobs img))) 63 (52 + yy))
    rw [roundtrip_lastcol_left_arm2_layer2 img yy (by simpa using hyy)]
    simpa using hal

/-- Witness for the amended C6: an image whose only opaque pixel sits in
the rightmost column of right_arm1_layer1 round-trips to Wide. -/
theorem roundtrip_wide_lastcol_evidence_witness :
    auto_detect_skin_type wideEdgeImg = "regular" ∧
    auto_detect_skin_type (alex_to_steve (steve_to_alex wideEdgeImg)) = "regular" :=
  roundtrip_wide_classification_with_lastcol_evidence wideEdgeImg
    ⟨right_arm1_layer1, by decide, 0, by decide, by decide⟩

set_option maxHeartbeats 2000000 in
/-- Counterexample to C6 as stated: wideInnerImg (opaque only at
(50, 16), inside the last-two-columns detection zone of
right_arm1_layer1 but in a column the Wide-to-Narrow conversion
deletes) is classified Wide, yet its Wide-to-Narrow then Narrow-to-Wide
round trip is classified Narrow. -/
theorem roundtrip_wide_classification_counterexample :
    auto_detect_skin_type wideInnerImg = "regular" ∧
    auto_detect_skin_type (alex_to_steve (steve_to_alex wideInnerImg)) = "slim" :=
  ⟨rfl, rfl⟩

/-- Witness for C1 at concrete pixels: (10, 3) inside head1_layer1 is
copied verbatim, (20, 40) inside body2_layer2 stays transparent. -/
theorem expand_copies_legacy_witness :
    convert_skin_64x32_to_64x64 wideEdgeImg 10 3 = wideEdgeImg 10 3 ∧
    convert_skin_64x32_to_64x64 wideEdgeImg 20 40 = transparent :=
  ⟨(expand_copies_legacy_and_blanks_layer2 wideEdgeImg 10 3).1 head1_layer1
      (by decide) (by decide),
   (expand_copies_legacy_and_blanks_layer2 wideEdgeImg 20 40).2 body2_layer2
      (by decide) (by decide)⟩

/-- Witness for C2 at concrete pixels: (10, 3) inside head1_layer1 is
restored by the double swap, (0, 0) lies outside every tabled rectangle
and ends transparent. -/
theorem swap_twice_witness :
    twice_swap_skin_layer wideEdgeImg 10 3 = wideEdgeImg 10 3 ∧
    twice_swap_skin_layer wideEdgeImg 0 0 = transparent :=
  ⟨(swap_twice_restores_tabled_regions wideEdgeImg 10 3).1 head1_layer1
      (by decide) (by decide),
   (swap_twice_restores_tabled_regions wideEdgeImg 0 0).2 (by decide)⟩

/-- Witness for C3 at the concrete pixel (36, 48), the top-left corner
of left_arm1_layer1, which receives the top-left corner (44, 16) of
right_arm1_layer1. -/
theorem expand_left_limbs_witness :
    convert_skin_64x32_to_64x64 wideEdgeImg 36 48 =
      wideEdgeImg (right_arm1_layer1.l + (36 - left_arm1_layer1.l))
        (right_arm1_layer1.t + (48 - left_arm1_layer1.t)) :=
  (expand_left_limbs_verbatim_from_right wideEdgeImg 36 48).1 (by decide)

/-- Witness for C4: the fully transparent canvas is classified Narrow. -/
theorem autodetect_witness :
    auto_detect_skin_type blank = "slim" :=
  (autodetect_wide_iff_edge_alpha blank).2.2 (fun _ _ _ _ => rfl)

/-- Witness for C5: a Wide-classified image narrows to a canvas that is
transparent at (0, 0), and a Narrow-classified image widens likewise. -/
theorem arm_conversion_blank_witness :
    steve_to_alex wideEdgeImg 0 0 = transparent ∧
    alex_to_steve blank 0 0 = transparent :=
  ⟨(arm_conversion_blank_outside_arms wideEdgeImg 0 0).1 rfl (by decide),
   (arm_conversion_blank_outside_arms blank 0 0).2 rfl (by decide)⟩

end MCSkin
